import Mathlib

/-!
Verification development for the `untroncli.py` command-line client.

The CLI is shallowly embedded: Python strings are modelled as lists of
character codes (`List Nat`), pure argument-normalisation helpers become Lean
functions, and each command handler becomes a function from its configuration,
an RPC environment and its parsed arguments to a trace of observable events
paired with a Python-style outcome (`Except PyErr`).  The third-party pieces
the CLI calls into (`bytes.fromhex`, `Web3.to_checksum_address`, the zksync
transaction builders) are embedded at the level of their documented behaviour;
the keccak hash used by the address checksum is kept as an explicit function
parameter, so every theorem about checksumming holds for the real hash.
-/

set_option linter.unusedVariables false

namespace Untron

/-- Character codes of a Lean string literal; used to write Python strings. -/
def codes (s : String) : List Nat := s.data.map Char.toNat

/-- Python `str.lower` on a single ASCII character code. -/
def lowerCode (c : Nat) : Nat := if 65 ≤ c ∧ c ≤ 90 then c + 32 else c

/-- Python `str.upper` on a single ASCII character code. -/
def upperCode (c : Nat) : Nat := if 97 ≤ c ∧ c ≤ 122 then c - 32 else c

/-- Hexadecimal digit test on a character code (0-9, a-f, A-F). -/
def isHexDigitCode (c : Nat) : Bool :=
  (48 ≤ c && c ≤ 57) || (97 ≤ c && c ≤ 102) || (65 ≤ c && c ≤ 70)

/-- Value of a hexadecimal digit character code, `none` if not a hex digit. -/
def hexDigitVal (c : Nat) : Option Nat :=
  if 48 ≤ c ∧ c ≤ 57 then some (c - 48)
  else if 97 ≤ c ∧ c ≤ 102 then some (c - 87)
  else if 65 ≤ c ∧ c ≤ 70 then some (c - 55)
  else none

/-- Python `s.startswith('0x')` on a character-code list. -/
def startsWith0x : List Nat → Bool
  | c :: d :: _ => c == 48 && d == 120
  | _ => false

/-- The two character codes of the `0x` marker. -/
def marker0x : List Nat := [48, 120]

/-- The ASCII whitespace characters CPython's `bytes.fromhex` skips between
byte pairs (Python >= 3.7, `Py_ISSPACE`): tab, LF, VT, FF, CR (codes 9-13)
and space (32). -/
def isPySpace (c : Nat) : Bool := (9 ≤ c && c ≤ 13) || c == 32

/-- Core of CPython's `bytes.fromhex`: reads pairs of adjacent hex digits,
skipping ASCII whitespace between pairs; any other character, or whitespace
in the middle of a pair, or a trailing lone digit, is an error (`none`). -/
def fromhexCore : List Nat → Option (List Nat)
  | [] => some []
  | c :: rest =>
    if isPySpace c then fromhexCore rest
    else
      match rest with
      | [] => none
      | d :: rest2 =>
        match hexDigitVal c, hexDigitVal d with
        | some hi, some lo => (fromhexCore rest2).map (fun bs => (16 * hi + lo) :: bs)
        | _, _ => none

/-- Python `bytes.fromhex` on a character-code string. -/
def pyFromhex (s : List Nat) : Option (List Nat) := fromhexCore s

/-- The CLI's hex-argument decoding pattern:
`bytes.fromhex(s[2:]) if s.startswith('0x') else bytes.fromhex(s)`. -/
def decodeHexArg (s : List Nat) : Option (List Nat) :=
  if startsWith0x s then pyFromhex (s.drop 2) else pyFromhex s

/-- Decimal digit value of a character code. -/
def digitVal (c : Nat) : Option Nat :=
  if 48 ≤ c ∧ c ≤ 57 then some (c - 48) else none

/-- Reads a nonempty all-decimal-digit string as a natural number. -/
def digitsToNat (l : List Nat) : Option Nat :=
  match l with
  | [] => none
  | _ =>
    l.foldl
      (fun acc c =>
        match acc, digitVal c with
        | some a, some d => some (a * 10 + d)
        | _, _ => none)
      (some 0)

/-- Python `int(s)` restricted to what the CLI feeds it: optional surrounding
spaces, an optional sign, then decimal digits. -/
def pyInt (s : List Nat) : Option Int :=
  let t := ((s.dropWhile (· == 32)).reverse.dropWhile (· == 32)).reverse
  match t with
  | 45 :: rest => (digitsToNat rest).map (fun n => -(n : Int))
  | 43 :: rest => (digitsToNat rest).map (fun n => (n : Int))
  | rest => (digitsToNat rest).map (fun n => (n : Int))

/-- Normalisation step of `eth_utils.to_checksum_address`: lowercase the
input, add the `0x` marker if it is missing, and require exactly 40 hex
digits after the marker. -/
def to_normalized_address (s : List Nat) : Option (List Nat) :=
  let low := s.map lowerCode
  let pre := if startsWith0x low then low else marker0x ++ low
  if pre.length = 42 ∧ (pre.drop 2).all isHexDigitCode then some pre else none

/-- EIP-55 casing: uppercase the i-th hex character exactly when the i-th
nibble of the keccak hash of the lowercase 40-character body exceeds 7. -/
def checksum_encode (kec : List Nat → List Nat) (norm : List Nat) : List Nat :=
  marker0x ++
    List.zipWith (fun c n => if 7 < n then upperCode c else c)
      (norm.drop 2) (kec (norm.drop 2))

/-- `Web3.to_checksum_address`, parametrised by the keccak nibble stream. -/
def to_checksum_address (kec : List Nat → List Nat) (s : List Nat) :
    Option (List Nat) :=
  match to_normalized_address s with
  | none => none
  | some norm => some (checksum_encode kec norm)

/-- The all-zero address literal used as the default `outToken`. -/
def zeroAddressCodes : List Nat := codes "0x0000000000000000000000000000000000000000"

/-- Order-identifier normalisation: add the `0x` marker if absent. -/
def normOrderId (s : List Nat) : List Nat :=
  if startsWith0x s then s else marker0x ++ s

/-- The transfer-intent structure assembled by `create_order`/`change_order`. -/
structure Transfer where
  recipient : List Nat
  chainId : Int
  acrossFee : Int
  doSwap : Bool
  outToken : List Nat
  minOutputPerUSDT : Int
  fixedOutput : Bool
  swapData : List Nat
  deriving DecidableEq

/-- The eight CLI flags feeding transfer-intent assembly. -/
structure TransferArgs where
  recipient : List Nat
  chainId : List Nat
  acrossFee : List Nat
  doSwap : Bool
  outToken : Option (List Nat)
  minOutputPerUSDT : List Nat
  fixedOutput : Bool
  swapData : List Nat

/-- Transfer-intent assembly from CLI flags, as written in `create_order`
and repeated verbatim in `change_order`: `outToken` falls back to the
all-zero address when the flag is absent (or Python-falsy, i.e. empty),
and `swapData` goes through the hex-argument decoder. -/
def buildTransfer (kec : List Nat → List Nat) (ta : TransferArgs) :
    Option Transfer :=
  match to_checksum_address kec ta.recipient, pyInt ta.chainId, pyInt ta.acrossFee,
      (match ta.outToken with
       | some s => if s = [] then some zeroAddressCodes else to_checksum_address kec s
       | none => some zeroAddressCodes),
      pyInt ta.minOutputPerUSDT, decodeHexArg ta.swapData with
  | some r, some ci, some af, some ot, some mo, some sd =>
    some ⟨r, ci, af, ta.doSwap, ot, mo, ta.fixedOutput, sd⟩
  | _, _, _, _, _, _ => none

/-- Arguments handed to the ABI call-data encoder (kept symbolic: the actual
byte-level ABI encoding lives in the external `zksync2` library). -/
inductive AbiValue
  | addr (a : List Nat)
  | uint (n : Int)
  | boolV (b : Bool)
  | bytesV (b : List Nat)
  | hexString (h : List Nat)
  | transferV (t : Transfer)
  | addrList (l : List (List Nat))
  | hexStringList (l : List (List Nat))
  deriving DecidableEq

/-- Result of `untron_encoder.encode_method(name, args)`, kept symbolic. -/
structure CallData where
  method : String
  args : List AbiValue
  deriving DecidableEq

/-- The unsigned transaction object built by the `TxFunctionCall`,
`TxCreateContract` and `TxCreate2Contract` builders. -/
structure UnsignedTx where
  chainId : Nat
  nonce : Nat
  from_ : List Nat
  to? : Option (List Nat)
  data : Option CallData
  bytecode : Option (List Nat)
  create2CallData : Option (List Nat × List Nat)
  gasLimit : Nat
  gasPrice : Nat
  maxPriorityFeePerGas : Nat
  salt? : Option (List Nat)
  deriving DecidableEq

/-- The EIP-712 transaction produced by `tx712(estimate_gas)`: the built
transaction together with the gas limit backfilled from estimation. -/
structure Tx712 where
  base : UnsignedTx
  gasLimit : Nat
  deriving DecidableEq

/-- A signed transaction as produced by `signer.sign_typed_data` + `encode`. -/
structure SignedTx where
  tx : Tx712
  signerAddress : List Nat
  deriving DecidableEq

/-- A transaction receipt returned by the node. -/
structure Receipt where
  contractAddress : List Nat
  status : Nat
  deriving DecidableEq

/-- Python-style failure outcomes of one CLI invocation. -/
inductive PyErr
  | exited (code : Nat)
  | exception (msg : String)
  | timeExhausted
  deriving DecidableEq

/-- Decidable equality for `Except` outcomes, used by concrete evaluations. -/
instance exceptDecEq {ε α : Type _} [DecidableEq ε] [DecidableEq α] :
    DecidableEq (Except ε α)
  | .error e1, .error e2 =>
    if h : e1 = e2 then isTrue (by rw [h]) else isFalse (by simp [h])
  | .error _, .ok _ => isFalse (by simp)
  | .ok _, .error _ => isFalse (by simp)
  | .ok a1, .ok a2 =>
    if h : a1 = a2 then isTrue (by rw [h]) else isFalse (by simp [h])

/-- The block-state parameter of `get_transaction_count`. -/
inductive BlockParam
  | pending
  | latest
  deriving DecidableEq

/-- The static configuration file `config.json`. -/
structure Config where
  untron_core_address : List Nat
  zksync_rpc : String
  private_key : List Nat
  deriving DecidableEq

/-- Observable events of one CLI invocation: network calls, file accesses,
printing, configuration writes and explicit exits. -/
inductive Ev
  | netChainId
  | netGetTransactionCount (param : BlockParam)
  | netGasPrice
  | netEstimateGas (tx : UnsignedTx)
  | netSendRawTransaction (s : SignedTx)
  | netWaitReceipt (timeout pollLatency : ℚ)
  | netViewCall (method : String)
  | fileExistsCheck (path : String)
  | fileOpen (path : String)
  | printMsg (s : String)
  | printReceipt (msg : String) (r : Receipt)
  | configWrite (cfg : Config)
  | exitProc (code : Nat)
  deriving DecidableEq

/-- Responses of the external world (node, file system, OS randomness) to the
calls a single CLI invocation makes. -/
structure Env where
  chainId : Nat
  transactionCount : BlockParam → Nat
  gasPrice : Nat
  estimateGas : UnsignedTx → Except String Nat
  deriveAddr : List Nat → List Nat
  fileExists : String → Bool
  fileBytecode : String → List Nat
  urandomByte : Fin 32 → Nat
  callResult : String → String

/-- The 32 bytes drawn from `os.urandom(32)` in this invocation. -/
def urandom32 (env : Env) : List Nat := List.ofFn env.urandomByte

/-- The fixed receipt timeout passed to `wait_for_transaction_receipt`. -/
def RECEIPT_TIMEOUT : ℚ := 240

/-- The fixed poll interval passed to `wait_for_transaction_receipt`. -/
def RECEIPT_POLL_LATENCY : ℚ := 1/2

/-- Number of poll attempts fitting in the timeout window (240 / 0.5). -/
def receiptPollCount : Nat := 480

/-- First receipt observed among poll attempts `0, …, n-1`. -/
def firstSome (orc : Nat → Option Receipt) (n : Nat) : Option Receipt :=
  (List.range n).findSome? orc

/-- The shared tail of every transaction submission: estimate gas against the
built transaction (gas limit 0), propagate an estimation failure unmodified, sign
with the estimate backfilled, broadcast, and poll for a receipt at the fixed
interval up to the fixed timeout. -/
def submitTx (env : Env) (orc : Nat → Option Receipt) (tx : UnsignedTx) :
    List Ev × Except PyErr Receipt :=
  match env.estimateGas tx with
  | .error e => ([.netEstimateGas tx], .error (.exception e))
  | .ok g =>
    let signed : SignedTx := ⟨⟨tx, g⟩, tx.from_⟩
    let evs : List Ev := [.netEstimateGas tx, .netSendRawTransaction signed,
      .netWaitReceipt RECEIPT_TIMEOUT RECEIPT_POLL_LATENCY]
    match firstSome orc receiptPollCount with
    | none => (evs, .error .timeExhausted)
    | some r => (evs, .ok r)

/-- The `TxFunctionCall` builder: gas limit 0, zero priority fee. -/
def buildFnTx (chainId nonce gasPrice : Nat) (fromA toAddr : List Nat)
    (d : CallData) : UnsignedTx :=
  { chainId := chainId, nonce := nonce, from_ := fromA, to? := some toAddr,
    data := some d, bytecode := none, create2CallData := none, gasLimit := 0,
    gasPrice := gasPrice, maxPriorityFeePerGas := 0, salt? := none }

/-- The `TxCreateContract` builder: plain creation, no salt argument. -/
def buildCreateTx (chainId nonce gasPrice : Nat) (fromA bytecode : List Nat) :
    UnsignedTx :=
  { chainId := chainId, nonce := nonce, from_ := fromA, to? := none,
    data := none, bytecode := some bytecode, create2CallData := none,
    gasLimit := 0, gasPrice := gasPrice, maxPriorityFeePerGas := 0,
    salt? := none }

/-- The `TxCreate2Contract` builder: salted deterministic creation. -/
def buildCreate2Tx (chainId nonce gasPrice : Nat)
    (fromA bytecode salt : List Nat) (callData : List Nat × List Nat) :
    UnsignedTx :=
  { chainId := chainId, nonce := nonce, from_ := fromA, to? := none,
    data := none, bytecode := some bytecode,
    create2CallData := some callData, gasLimit := 0, gasPrice := gasPrice,
    maxPriorityFeePerGas := 0, salt? := some salt }

/-- Block-state parameters of the nonce fetches in a trace. -/
def noncePs (tr : List Ev) : List BlockParam :=
  tr.filterMap fun e =>
    match e with
    | .netGetTransactionCount p => some p
    | _ => none

/-- Transactions against which gas estimation was requested in a trace. -/
def estimatedTxs (tr : List Ev) : List UnsignedTx :=
  tr.filterMap fun e =>
    match e with
    | .netEstimateGas tx => some tx
    | _ => none

/-- Signed transactions broadcast in a trace. -/
def sentTxs (tr : List Ev) : List SignedTx :=
  tr.filterMap fun e =>
    match e with
    | .netSendRawTransaction s => some s
    | _ => none

/-- Timeout/interval pairs of the receipt waits in a trace. -/
def waitParams (tr : List Ev) : List (ℚ × ℚ) :=
  tr.filterMap fun e =>
    match e with
    | .netWaitReceipt t l => some (t, l)
    | _ => none

/-- Receipts printed in a trace. -/
def receiptPrints (tr : List Ev) : List Receipt :=
  tr.filterMap fun e =>
    match e with
    | .printReceipt _ r => some r
    | _ => none

/-- Configuration snapshots written back to `config.json` in a trace. -/
def configWrites (tr : List Ev) : List Config :=
  tr.filterMap fun e =>
    match e with
    | .configWrite c => some c
    | _ => none

/-- Tests whether an event is a network call. -/
def isNetEv : Ev → Bool
  | .netChainId => true
  | .netGetTransactionCount _ => true
  | .netGasPrice => true
  | .netEstimateGas _ => true
  | .netSendRawTransaction _ => true
  | .netWaitReceipt _ _ => true
  | .netViewCall _ => true
  | _ => false

/-- The network calls of a trace. -/
def netEvs (tr : List Ev) : List Ev := tr.filter isNetEv

/-- Expected path of the UntronCore contract artifact. -/
def untronCorePath : String := "../contracts/zkout/UntronCore.sol/UntronCore.json"

/-- Expected path of the ERC1967Proxy contract artifact. -/
def proxyArtifactPath : String := "../contracts/zkout/ERC1967Proxy.sol/ERC1967Proxy.json"

/-- Expected path of the MockUSDT contract artifact. -/
def mockUsdtPath : String := "../contracts/zkout/UntronCore.t.sol/MockUSDT.json"

/-- Events of `initialize_rpc_variables(); initialize_write_variables()` as
run by the deploy and mock-token flows: building the RPC handle makes no
network call, deriving the account is local, and constructing the signer
reads `zk_web3.eth.chain_id` over the network. -/
def initRpcWriteEvs : List Ev := [Ev.netChainId]

/-- The uncaught error every contract write command dies with: these
handlers call only `initialize_write_variables`, never
`initialize_rpc_variables`, so the module global `zk_web3` read by the
signer construction is unbound and Python raises `NameError` before any
normalisation or network call. -/
def nameErrorZkWeb3 : PyErr :=
  .exception "NameError: name 'zk_web3' is not defined"

/-- The `load_contract_file` helper: checks that the UntronCore artifact
exists; if absent it prints a descriptive message and exits with code 1,
otherwise it opens and parses the file. -/
def load_contract_file (env : Env) : List Ev × Except PyErr (List Nat) :=
  if env.fileExists untronCorePath then
    ([Ev.fileExistsCheck untronCorePath, Ev.fileOpen untronCorePath],
     .ok (env.fileBytecode untronCorePath))
  else
    ([Ev.fileExistsCheck untronCorePath,
      Ev.printMsg "ABI file 'UntronCore.json' not found.", Ev.exitProc 1],
     .error (.exited 1))

/-- Events and outcome of `initialize_read_variables` (building the RPC
handle makes no network call; the artifact load may exit). -/
def init_read (env : Env) : List Ev × Except PyErr Unit :=
  let lf := load_contract_file env
  (lf.1, lf.2.map (fun _ => ()))

/-- Completes a command after submission: on failure the error propagates
with the events so far; on success the receipt is printed. -/
def finishWrite (msg : String) (pre : List Ev) (post : List String)
    (s : List Ev × Except PyErr Receipt) : List Ev × Except PyErr Unit :=
  match s.2 with
  | .error e => (pre ++ s.1, .error e)
  | .ok r => (pre ++ s.1 ++ [Ev.printReceipt msg r] ++ post.map Ev.printMsg, .ok ())

/-- Completes a command after submission, printing a plain message (used by
`deployMockUSDT`, which prints the deployed address rather than the receipt). -/
def finishMsg (msg : String) (pre : List Ev)
    (s : List Ev × Except PyErr Receipt) : List Ev × Except PyErr Unit :=
  match s.2 with
  | .error e => (pre ++ s.1, .error e)
  | .ok r => (pre ++ s.1 ++ [Ev.printMsg msg], .ok ())

/-- The shared body of every contract write command. Each of these handlers
begins with `initialize_write_variables()` and never calls
`initialize_rpc_variables()`, so in the fresh process of a CLI invocation
the module global `zk_web3` the signer construction reads is unbound:
the handler raises an uncaught `NameError` before performing any argument
normalisation or network call. The normalisation, the nonce fetch (whose
in-source block parameter `p` names the latest state), the gas-price fetch,
the call-data encoding `d?` and the estimate/sign/broadcast/wait pipeline
below that first line are dead code in every run, as are the equally
uninitialised globals `untron_encoder` and `UNTRON_CORE_ADDRESS` they
would read. -/
def runContractWrite (cfg : Config) (env : Env) (orc : Nat → Option Receipt)
    (p : BlockParam) (d? : Option CallData) (msg : String) :
    List Ev × Except PyErr Unit :=
  ([], .error nameErrorZkWeb3)

/-- CLI flags of the `createOrder` command. -/
structure CreateOrderArgs where
  provider : List Nat
  receiver : List Nat
  size : List Nat
  rate : List Nat
  recipient : List Nat
  chainId : List Nat
  acrossFee : List Nat
  doSwap : Bool
  outToken : Option (List Nat)
  minOutputPerUSDT : List Nat
  fixedOutput : Bool
  swapData : List Nat

/-- The transfer flags of a `createOrder` invocation. -/
def createOrderTA (a : CreateOrderArgs) : TransferArgs :=
  ⟨a.recipient, a.chainId, a.acrossFee, a.doSwap, a.outToken,
   a.minOutputPerUSDT, a.fixedOutput, a.swapData⟩

/-- Normalisation and call-data encoding of `create_order`. -/
def create_order_calldata (kec : List Nat → List Nat) (a : CreateOrderArgs) :
    Option CallData :=
  match to_checksum_address kec a.provider, to_checksum_address kec a.receiver,
      pyInt a.size, pyInt a.rate, buildTransfer kec (createOrderTA a) with
  | some p, some r, some sz, some rt, some t =>
    some ⟨"createOrder", [.addr p, .addr r, .uint sz, .uint rt, .transferV t]⟩
  | _, _, _, _, _ => none

/-- The `createOrder` command handler. -/
def create_order (kec : List Nat → List Nat) (cfg : Config) (env : Env)
    (orc : Nat → Option Receipt) (a : CreateOrderArgs) :
    List Ev × Except PyErr Unit :=
  runContractWrite cfg env orc .latest (create_order_calldata kec a)
    "Transaction sent. Receipt: "

/-- CLI flags of the `setProvider` command. -/
structure SetProviderArgs where
  liquidity : List Nat
  rate : List Nat
  minOrderSize : List Nat
  minDeposit : List Nat
  receivers : List (List Nat)

/-- Normalisation and call-data encoding of `set_provider`. -/
def set_provider_calldata (kec : List Nat → List Nat) (a : SetProviderArgs) :
    Option CallData :=
  match pyInt a.liquidity, pyInt a.rate, pyInt a.minOrderSize,
      pyInt a.minDeposit, a.receivers.mapM (to_checksum_address kec) with
  | some l, some r, some mo, some md, some rs =>
    some ⟨"setProvider", [.uint l, .uint r, .uint mo, .uint md, .addrList rs]⟩
  | _, _, _, _, _ => none

/-- The `setProvider` command handler. -/
def set_provider (kec : List Nat → List Nat) (cfg : Config) (env : Env)
    (orc : Nat → Option Receipt) (a : SetProviderArgs) :
    List Ev × Except PyErr Unit :=
  runContractWrite cfg env orc .latest (set_provider_calldata kec a)
    "Transaction sent. Receipt: "

/-- CLI flags of the `changeOrder` command. -/
structure ChangeOrderArgs where
  orderId : List Nat
  recipient : List Nat
  chainId : List Nat
  acrossFee : List Nat
  doSwap : Bool
  outToken : Option (List Nat)
  minOutputPerUSDT : List Nat
  fixedOutput : Bool
  swapData : List Nat

/-- The transfer flags of a `changeOrder` invocation. -/
def changeOrderTA (a : ChangeOrderArgs) : TransferArgs :=
  ⟨a.recipient, a.chainId, a.acrossFee, a.doSwap, a.outToken,
   a.minOutputPerUSDT, a.fixedOutput, a.swapData⟩

/-- Normalisation and call-data encoding of `change_order`. -/
def change_order_calldata (kec : List Nat → List Nat) (a : ChangeOrderArgs) :
    Option CallData :=
  match buildTransfer kec (changeOrderTA a) with
  | some t =>
    some ⟨"changeOrder", [.hexString (normOrderId a.orderId), .transferV t]⟩
  | none => none

/-- The `changeOrder` command handler. -/
def change_order (kec : List Nat → List Nat) (cfg : Config) (env : Env)
    (orc : Nat → Option Receipt) (a : ChangeOrderArgs) :
    List Ev × Except PyErr Unit :=
  runContractWrite cfg env orc .latest (change_order_calldata kec a)
    "Transaction sent. Receipt: "

/-- The `stopOrder` command handler. -/
def stop_order (cfg : Config) (env : Env) (orc : Nat → Option Receipt)
    (orderId : List Nat) : List Ev × Except PyErr Unit :=
  runContractWrite cfg env orc .latest
    (some ⟨"stopOrder", [.hexString (normOrderId orderId)]⟩)
    "Order stopped. Receipt: "

/-- Normalisation and call-data encoding of `fulfill`. -/
def fulfill_calldata (orderIds : List (List Nat)) (total : List Nat) :
    Option CallData :=
  match pyInt total with
  | some t =>
    some ⟨"fulfill", [.hexStringList (orderIds.map normOrderId), .uint t]⟩
  | none => none

/-- The `fulfill` command handler. -/
def fulfill (cfg : Config) (env : Env) (orc : Nat → Option Receipt)
    (orderIds : List (List Nat)) (total : List Nat) :
    List Ev × Except PyErr Unit :=
  runContractWrite cfg env orc .latest (fulfill_calldata orderIds total)
    "Orders fulfilled. Receipt: "

/-- Normalisation and call-data encoding of `close_orders`; both hex
arguments go through the same marker-stripping byte decoder. -/
def close_orders_calldata (proof publicValues : List Nat) : Option CallData :=
  match decodeHexArg proof, decodeHexArg publicValues with
  | some p, some v => some ⟨"closeOrders", [.bytesV p, .bytesV v]⟩
  | _, _ => none

/-- The `closeOrders` command handler. -/
def close_orders (cfg : Config) (env : Env) (orc : Nat → Option Receipt)
    (proof publicValues : List Nat) : List Ev × Except PyErr Unit :=
  runContractWrite cfg env orc .latest (close_orders_calldata proof publicValues)
    "Orders closed. Receipt: "

/-- Normalisation and call-data encoding of `set_zk_variables`. -/
def set_zk_variables_calldata (kec : List Nat → List Nat)
    (trustedRelayer verifier vkey : List Nat) : Option CallData :=
  match to_checksum_address kec trustedRelayer, to_checksum_address kec verifier with
  | some tr, some v =>
    some ⟨"setZKVariables", [.addr tr, .addr v, .hexString (normOrderId vkey)]⟩
  | _, _ => none

/-- The `setZKVariables` command handler. -/
def set_zk_variables (kec : List Nat → List Nat) (cfg : Config) (env : Env)
    (orc : Nat → Option Receipt) (trustedRelayer verifier vkey : List Nat) :
    List Ev × Except PyErr Unit :=
  runContractWrite cfg env orc .latest
    (set_zk_variables_calldata kec trustedRelayer verifier vkey)
    "ZK variables set. Receipt: "

/-- Normalisation and call-data encoding of `set_transfers_variables`. -/
def set_transfers_variables_calldata (kec : List Nat → List Nat)
    (usdt spokePool swapper : List Nat) : Option CallData :=
  match to_checksum_address kec usdt, to_checksum_address kec spokePool,
      to_checksum_address kec swapper with
  | some u, some sp, some sw =>
    some ⟨"setTransfersVariables", [.addr u, .addr sp, .addr sw]⟩
  | _, _, _ => none

/-- The `setTransfersVariables` command handler. -/
def set_transfers_variables (kec : List Nat → List Nat) (cfg : Config)
    (env : Env) (orc : Nat → Option Receipt) (usdt spokePool swapper : List Nat) :
    List Ev × Except PyErr Unit :=
  runContractWrite cfg env orc .latest
    (set_transfers_variables_calldata kec usdt spokePool swapper)
    "Transfers variables set. Receipt: "

/-- Normalisation and call-data encoding of `set_fees_variables`. -/
def set_fees_variables_calldata (relayerFee feePoint : List Nat) :
    Option CallData :=
  match pyInt relayerFee, pyInt feePoint with
  | some rf, some fp => some ⟨"setFeesVariables", [.uint rf, .uint fp]⟩
  | _, _ => none

/-- The `setFeesVariables` command handler. -/
def set_fees_variables (cfg : Config) (env : Env) (orc : Nat → Option Receipt)
    (relayerFee feePoint : List Nat) : List Ev × Except PyErr Unit :=
  runContractWrite cfg env orc .latest
    (set_fees_variables_calldata relayerFee feePoint)
    "Fees variables set. Receipt: "

/-- Normalisation and call-data encoding of `set_core_variables`. -/
def set_core_variables_calldata
    (blockId actionChainTip latestExecutedAction stateHash
      maxOrderSize requiredCollateral : List Nat) : Option CallData :=
  match pyInt maxOrderSize, pyInt requiredCollateral with
  | some mo, some rc =>
    some ⟨"setCoreVariables",
      [.hexString (normOrderId blockId), .hexString (normOrderId actionChainTip),
       .hexString (normOrderId latestExecutedAction),
       .hexString (normOrderId stateHash), .uint mo, .uint rc]⟩
  | _, _ => none

/-- The `setCoreVariables` command handler. -/
def set_core_variables (cfg : Config) (env : Env) (orc : Nat → Option Receipt)
    (blockId actionChainTip latestExecutedAction stateHash
      maxOrderSize requiredCollateral : List Nat) :
    List Ev × Except PyErr Unit :=
  runContractWrite cfg env orc .latest
    (set_core_variables_calldata blockId actionChainTip latestExecutedAction
      stateHash maxOrderSize requiredCollateral)
    "Core variables set. Receipt: "

/-- The selector bytes of `initialize()` passed in the proxy's init data. -/
def erc1967InitSelector : List Nat := [129, 41, 252, 28]

/-- Call data of the mock-token mint: always the signer's own derived
address as recipient and always exactly 1000000000 units. -/
def mintCallData (cfg : Config) (env : Env) : CallData :=
  ⟨"mint", [.addr (env.deriveAddr cfg.private_key), .uint 1000000000]⟩

/-- The function-call transaction built by `mint_mock_usdt`: the `--address`
argument is used, unmodified, as the target contract. -/
def mintTx (cfg : Config) (env : Env) (address : List Nat) : UnsignedTx :=
  buildFnTx env.chainId (env.transactionCount .pending) env.gasPrice
    (env.deriveAddr cfg.private_key) address (mintCallData cfg env)

/-- The creation transaction built by `deploy_mock_usdt` (no salt). -/
def mockCreateTx (cfg : Config) (env : Env) : UnsignedTx :=
  buildCreateTx env.chainId (env.transactionCount .pending) env.gasPrice
    (env.deriveAddr cfg.private_key) (env.fileBytecode mockUsdtPath)

/-- The creation transaction built by `deploy_implementation` (no salt). -/
def implCreateTx (cfg : Config) (env : Env) (bytecode : List Nat) : UnsignedTx :=
  buildCreateTx env.chainId (env.transactionCount .pending) env.gasPrice
    (env.deriveAddr cfg.private_key) bytecode

/-- The Create2 transaction built by `deploy_proxy`, salted with the 32
bytes drawn from `os.urandom`. -/
def proxyCreateTx (cfg : Config) (env : Env)
    (implementation_address : List Nat) : UnsignedTx :=
  buildCreate2Tx env.chainId (env.transactionCount .pending) env.gasPrice
    (env.deriveAddr cfg.private_key) (env.fileBytecode proxyArtifactPath)
    (urandom32 env) (implementation_address, erc1967InitSelector)

/-- The `mintMockUSDT` command handler: nonce and gas price are fetched from
the pending state before the MockUSDT artifact is opened (with no existence
check); the encoded call always mints 1000000000 units to the signer's own
address, and the `--address` flag only selects the target contract. -/
def mint_mock_usdt (cfg : Config) (env : Env) (orc : Nat → Option Receipt)
    (address : List Nat) : List Ev × Except PyErr Unit :=
  let pre := initRpcWriteEvs ++ [Ev.netGetTransactionCount .pending, Ev.netGasPrice]
  if env.fileExists mockUsdtPath then
    finishWrite "Transaction sent. Receipt: "
      (pre ++ [Ev.fileOpen mockUsdtPath, Ev.netChainId])
      ["Minted 1000 USDT to "] (submitTx env orc (mintTx cfg env address))
  else
    (pre ++ [Ev.fileOpen mockUsdtPath], .error (.exception "FileNotFoundError"))

/-- The `deployMockUSDT` command handler: like `mintMockUSDT`, the nonce and
gas price fetches precede the unchecked artifact open; the creation
transaction is a plain `TxCreateContract` with no salt. -/
def deploy_mock_usdt (cfg : Config) (env : Env) (orc : Nat → Option Receipt) :
    List Ev × Except PyErr Unit :=
  let pre := initRpcWriteEvs ++ [Ev.netGetTransactionCount .pending, Ev.netGasPrice]
  if env.fileExists mockUsdtPath then
    finishMsg "Deployed mock USDT at "
      (pre ++ [Ev.fileOpen mockUsdtPath, Ev.netChainId])
      (submitTx env orc (mockCreateTx cfg env))
  else
    (pre ++ [Ev.fileOpen mockUsdtPath], .error (.exception "FileNotFoundError"))

/-- The `deploy_implementation` helper: pending nonce, gas price, plain
(unsalted) creation transaction, then submission; on success the deployed
address is extracted from the receipt. -/
def deploy_implementation (cfg : Config) (env : Env)
    (orc : Nat → Option Receipt) (bytecode : List Nat) :
    List Ev × Except PyErr (List Nat) :=
  let s := submitTx env orc (implCreateTx cfg env bytecode)
  ([Ev.netGetTransactionCount .pending, Ev.netGasPrice, Ev.netChainId] ++ s.1,
   s.2.map (fun r => r.contractAddress))

/-- The `deploy_proxy` helper: checks the proxy artifact first (message and
exit 1 if absent), then pending nonce, gas price, and a Create2 transaction
salted with `os.urandom(32)`. -/
def deploy_proxy (cfg : Config) (env : Env) (orc : Nat → Option Receipt)
    (implementation_address : List Nat) : List Ev × Except PyErr (List Nat) :=
  if env.fileExists proxyArtifactPath then
    let s := submitTx env orc (proxyCreateTx cfg env implementation_address)
    ([Ev.fileExistsCheck proxyArtifactPath, Ev.fileOpen proxyArtifactPath,
      Ev.netGetTransactionCount .pending, Ev.netGasPrice, Ev.netChainId] ++ s.1,
     s.2.map (fun r => r.contractAddress))
  else
    ([Ev.fileExistsCheck proxyArtifactPath,
      Ev.printMsg "ABI file 'ERC1967Proxy.json' not found.", Ev.exitProc 1],
     .error (.exited 1))

/-- The `deploy` command handler: implementation then proxy, then the
configuration file is written back with `untron_core_address` set to the
proxy address; finally the read variables are re-initialised (loading the
artifact once more) and a completion message is printed. -/
def deploy_untron (cfg : Config) (env : Env)
    (orc0 orc1 : Nat → Option Receipt) : List Ev × Except PyErr Unit :=
  let lf := load_contract_file env
  match lf.2 with
  | .error e => (initRpcWriteEvs ++ lf.1, .error e)
  | .ok bytecode =>
    let di := deploy_implementation cfg env orc0 bytecode
    match di.2 with
    | .error e => (initRpcWriteEvs ++ lf.1 ++ di.1, .error e)
    | .ok implAddr =>
      let dp := deploy_proxy cfg env orc1 implAddr
      match dp.2 with
      | .error e =>
        (initRpcWriteEvs ++ lf.1 ++ di.1 ++
          [Ev.printMsg "UntronCore implementation deployed at "] ++ dp.1,
         .error e)
      | .ok proxyAddr =>
        let cfg2 : Config := { cfg with untron_core_address := proxyAddr }
        (initRpcWriteEvs ++ lf.1 ++ di.1 ++
          [Ev.printMsg "UntronCore implementation deployed at "] ++ dp.1 ++
          [Ev.printMsg "UntronCore proxy deployed at ", Ev.configWrite cfg2] ++
          lf.1 ++ [Ev.printMsg "Deployment complete."], .ok ())

/-- The `providers` read command. -/
def providers (kec : List Nat → List Nat) (cfg : Config) (env : Env)
    (provider : List Nat) : List Ev × Except PyErr Unit :=
  let ir := init_read env
  match ir.2 with
  | .error e => (ir.1, .error e)
  | .ok _ =>
    match to_checksum_address kec provider with
    | none => (ir.1, .error (.exception "InvalidAddress"))
    | some _ =>
      (ir.1 ++ [Ev.netViewCall "providers",
        Ev.printMsg ("Provider details: " ++ env.callResult "providers")], .ok ())

/-- The `isReceiverBusy` read command. -/
def is_receiver_busy (kec : List Nat → List Nat) (cfg : Config) (env : Env)
    (receiver : List Nat) : List Ev × Except PyErr Unit :=
  let ir := init_read env
  match ir.2 with
  | .error e => (ir.1, .error e)
  | .ok _ =>
    match to_checksum_address kec receiver with
    | none => (ir.1, .error (.exception "InvalidAddress"))
    | some _ =>
      (ir.1 ++ [Ev.netViewCall "isReceiverBusy",
        Ev.printMsg ("Is receiver busy: " ++ env.callResult "isReceiverBusy")], .ok ())

/-- The `receiverOwners` read command. -/
def receiver_owners (kec : List Nat → List Nat) (cfg : Config) (env : Env)
    (receiver : List Nat) : List Ev × Except PyErr Unit :=
  let ir := init_read env
  match ir.2 with
  | .error e => (ir.1, .error e)
  | .ok _ =>
    match to_checksum_address kec receiver with
    | none => (ir.1, .error (.exception "InvalidAddress"))
    | some _ =>
      (ir.1 ++ [Ev.netViewCall "receiverOwners",
        Ev.printMsg ("Receiver owner: " ++ env.callResult "receiverOwners")], .ok ())

/-- The `orders` read command. -/
def orders (cfg : Config) (env : Env) (orderId : List Nat) :
    List Ev × Except PyErr Unit :=
  let ir := init_read env
  match ir.2 with
  | .error e => (ir.1, .error e)
  | .ok _ =>
    (ir.1 ++ [Ev.netViewCall "orders",
      Ev.printMsg ("Order details: " ++ env.callResult "orders")], .ok ())

/-- The `blockId` read command. -/
def block_id (cfg : Config) (env : Env) : List Ev × Except PyErr Unit :=
  let ir := init_read env
  match ir.2 with
  | .error e => (ir.1, .error e)
  | .ok _ =>
    (ir.1 ++ [Ev.netViewCall "blockId",
      Ev.printMsg ("Current block ID: " ++ env.callResult "blockId")], .ok ())

/-- The `actionChainTip` read command. -/
def action_chain_tip (cfg : Config) (env : Env) : List Ev × Except PyErr Unit :=
  let ir := init_read env
  match ir.2 with
  | .error e => (ir.1, .error e)
  | .ok _ =>
    (ir.1 ++ [Ev.netViewCall "actionChainTip",
      Ev.printMsg ("Current action chain tip: " ++ env.callResult "actionChainTip")], .ok ())

/-- The `latestExecutedAction` read command. -/
def latest_executed_action (cfg : Config) (env : Env) :
    List Ev × Except PyErr Unit :=
  let ir := init_read env
  match ir.2 with
  | .error e => (ir.1, .error e)
  | .ok _ =>
    (ir.1 ++ [Ev.netViewCall "latestExecutedAction",
      Ev.printMsg ("Latest executed action: " ++ env.callResult "latestExecutedAction")], .ok ())

/-- The `stateHash` read command. -/
def state_hash (cfg : Config) (env : Env) : List Ev × Except PyErr Unit :=
  let ir := init_read env
  match ir.2 with
  | .error e => (ir.1, .error e)
  | .ok _ =>
    (ir.1 ++ [Ev.netViewCall "stateHash",
      Ev.printMsg ("Current state hash: " ++ env.callResult "stateHash")], .ok ())

/-- The `maxOrderSize` read command. -/
def max_order_size (cfg : Config) (env : Env) : List Ev × Except PyErr Unit :=
  let ir := init_read env
  match ir.2 with
  | .error e => (ir.1, .error e)
  | .ok _ =>
    (ir.1 ++ [Ev.netViewCall "maxOrderSize",
      Ev.printMsg ("Maximum order size: " ++ env.callResult "maxOrderSize")], .ok ())

/-- The `requiredCollateral` read command. -/
def required_collateral (cfg : Config) (env : Env) :
    List Ev × Except PyErr Unit :=
  let ir := init_read env
  match ir.2 with
  | .error e => (ir.1, .error e)
  | .ok _ =>
    (ir.1 ++ [Ev.netViewCall "requiredCollateral",
      Ev.printMsg ("Required collateral: " ++ env.callResult "requiredCollateral")], .ok ())

/-- The `calculateFulfillerTotal` read command. -/
def calculate_fulfiller_total (cfg : Config) (env : Env)
    (orderIds : List (List Nat)) : List Ev × Except PyErr Unit :=
  let ir := init_read env
  match ir.2 with
  | .error e => (ir.1, .error e)
  | .ok _ =>
    (ir.1 ++ [Ev.netViewCall "calculateFulfillerTotal",
      Ev.printMsg ("Fulfiller total - Expense: " ++
        env.callResult "calculateFulfillerTotal")], .ok ())

theorem noncePs_append (a b : List Ev) :
    noncePs (a ++ b) = noncePs a ++ noncePs b := List.filterMap_append a b _

theorem estimatedTxs_append (a b : List Ev) :
    estimatedTxs (a ++ b) = estimatedTxs a ++ estimatedTxs b :=
  List.filterMap_append a b _

theorem sentTxs_append (a b : List Ev) :
    sentTxs (a ++ b) = sentTxs a ++ sentTxs b := List.filterMap_append a b _

theorem waitParams_append (a b : List Ev) :
    waitParams (a ++ b) = waitParams a ++ waitParams b :=
  List.filterMap_append a b _

theorem receiptPrints_append (a b : List Ev) :
    receiptPrints (a ++ b) = receiptPrints a ++ receiptPrints b :=
  List.filterMap_append a b _

theorem configWrites_append (a b : List Ev) :
    configWrites (a ++ b) = configWrites a ++ configWrites b :=
  List.filterMap_append a b _

theorem netEvs_append (a b : List Ev) :
    netEvs (a ++ b) = netEvs a ++ netEvs b := List.filter_append a b

theorem firstSome_of_none (orc : Nat → Option Receipt)
    (h : ∀ k, orc k = none) (n : Nat) : firstSome orc n = none :=
  List.findSome?_eq_none_iff.mpr (fun k _ => h k)

theorem noncePs_submitTx (env : Env) (orc : Nat → Option Receipt)
    (tx : UnsignedTx) : noncePs (submitTx env orc tx).1 = [] := by
  unfold submitTx
  cases h : env.estimateGas tx
  · rfl
  · cases h2 : firstSome orc receiptPollCount <;> rfl

theorem estimatedTxs_submitTx (env : Env) (orc : Nat → Option Receipt)
    (tx : UnsignedTx) : estimatedTxs (submitTx env orc tx).1 = [tx] := by
  unfold submitTx
  cases h : env.estimateGas tx
  · rfl
  · cases h2 : firstSome orc receiptPollCount <;> rfl

theorem sentTxs_submitTx (env : Env) (orc : Nat → Option Receipt)
    (tx : UnsignedTx) :
    sentTxs (submitTx env orc tx).1 =
      match env.estimateGas tx with
      | .error _ => []
      | .ok g => [⟨⟨tx, g⟩, tx.from_⟩] := by
  unfold submitTx
  cases h : env.estimateGas tx
  · rfl
  · cases h2 : firstSome orc receiptPollCount <;> rfl

theorem waitParams_submitTx (env : Env) (orc : Nat → Option Receipt)
    (tx : UnsignedTx) :
    waitParams (submitTx env orc tx).1 =
      match env.estimateGas tx with
      | .error _ => []
      | .ok _ => [(RECEIPT_TIMEOUT, RECEIPT_POLL_LATENCY)] := by
  unfold submitTx
  cases h : env.estimateGas tx
  · rfl
  · cases h2 : firstSome orc receiptPollCount <;> rfl

theorem receiptPrints_submitTx (env : Env) (orc : Nat → Option Receipt)
    (tx : UnsignedTx) : receiptPrints (submitTx env orc tx).1 = [] := by
  unfold submitTx
  cases h : env.estimateGas tx
  · rfl
  · cases h2 : firstSome orc receiptPollCount <;> rfl

theorem configWrites_submitTx (env : Env) (orc : Nat → Option Receipt)
    (tx : UnsignedTx) : configWrites (submitTx env orc tx).1 = [] := by
  unfold submitTx
  cases h : env.estimateGas tx
  · rfl
  · cases h2 : firstSome orc receiptPollCount <;> rfl

theorem res_submitTx (env : Env) (orc : Nat → Option Receipt)
    (tx : UnsignedTx) :
    (submitTx env orc tx).2 =
      match env.estimateGas tx with
      | .error e => .error (.exception e)
      | .ok _ =>
        match firstSome orc receiptPollCount with
        | none => .error .timeExhausted
        | some r => .ok r := by
  unfold submitTx
  cases h : env.estimateGas tx
  · rfl
  · cases h2 : firstSome orc receiptPollCount <;> rfl

theorem submitTx_ok_receipt (env : Env) (orc : Nat → Option Receipt)
    (tx : UnsignedTx) (r : Receipt) (h : (submitTx env orc tx).2 = .ok r) :
    firstSome orc receiptPollCount = some r := by
  rw [res_submitTx] at h
  cases he : env.estimateGas tx <;> rw [he] at h
  · simp at h
  · cases h2 : firstSome orc receiptPollCount <;> rw [h2] at h
    · simp at h
    · simp at h
      rw [h]

theorem noncePs_finishWrite (msg : String) (pre : List Ev) (post : List String)
    (s : List Ev × Except PyErr Receipt) :
    noncePs (finishWrite msg pre post s).1 = noncePs pre ++ noncePs s.1 := by
  unfold finishWrite
  cases h : s.2 <;>
    simp [noncePs_append, noncePs, List.filterMap_map, Function.comp]

theorem estimatedTxs_finishWrite (msg : String) (pre : List Ev)
    (post : List String) (s : List Ev × Except PyErr Receipt) :
    estimatedTxs (finishWrite msg pre post s).1 =
      estimatedTxs pre ++ estimatedTxs s.1 := by
  unfold finishWrite
  cases h : s.2 <;>
    simp [estimatedTxs_append, estimatedTxs, List.filterMap_map, Function.comp]

theorem sentTxs_finishWrite (msg : String) (pre : List Ev) (post : List String)
    (s : List Ev × Except PyErr Receipt) :
    sentTxs (finishWrite msg pre post s).1 = sentTxs pre ++ sentTxs s.1 := by
  unfold finishWrite
  cases h : s.2 <;>
    simp [sentTxs_append, sentTxs, List.filterMap_map, Function.comp]

theorem waitParams_finishWrite (msg : String) (pre : List Ev)
    (post : List String) (s : List Ev × Except PyErr Receipt) :
    waitParams (finishWrite msg pre post s).1 =
      waitParams pre ++ waitParams s.1 := by
  unfold finishWrite
  cases h : s.2 <;>
    simp [waitParams_append, waitParams, List.filterMap_map, Function.comp]

theorem configWrites_finishWrite (msg : String) (pre : List Ev)
    (post : List String) (s : List Ev × Except PyErr Receipt) :
    configWrites (finishWrite msg pre post s).1 =
      configWrites pre ++ configWrites s.1 := by
  unfold finishWrite
  cases h : s.2 <;>
    simp [configWrites_append, configWrites, List.filterMap_map, Function.comp]

theorem receiptPrints_finishWrite (msg : String) (pre : List Ev)
    (post : List String) (s : List Ev × Except PyErr Receipt) :
    receiptPrints (finishWrite msg pre post s).1 =
      receiptPrints pre ++ receiptPrints s.1 ++
        (match s.2 with | .error _ => [] | .ok r => [r]) := by
  unfold finishWrite
  cases h : s.2 <;>
    simp [receiptPrints_append, receiptPrints, List.filterMap_map, Function.comp]

theorem res_finishWrite (msg : String) (pre : List Ev) (post : List String)
    (s : List Ev × Except PyErr Receipt) :
    (finishWrite msg pre post s).2 =
      match s.2 with | .error e => .error e | .ok _ => .ok () := by
  unfold finishWrite
  cases h : s.2 <;> rfl

theorem noncePs_finishMsg (msg : String) (pre : List Ev)
    (s : List Ev × Except PyErr Receipt) :
    noncePs (finishMsg msg pre s).1 = noncePs pre ++ noncePs s.1 := by
  unfold finishMsg
  cases h : s.2 <;> simp [noncePs_append, noncePs]

theorem estimatedTxs_finishMsg (msg : String) (pre : List Ev)
    (s : List Ev × Except PyErr Receipt) :
    estimatedTxs (finishMsg msg pre s).1 =
      estimatedTxs pre ++ estimatedTxs s.1 := by
  unfold finishMsg
  cases h : s.2 <;> simp [estimatedTxs_append, estimatedTxs]

theorem sentTxs_finishMsg (msg : String) (pre : List Ev)
    (s : List Ev × Except PyErr Receipt) :
    sentTxs (finishMsg msg pre s).1 = sentTxs pre ++ sentTxs s.1 := by
  unfold finishMsg
  cases h : s.2 <;> simp [sentTxs_append, sentTxs]

theorem waitParams_finishMsg (msg : String) (pre : List Ev)
    (s : List Ev × Except PyErr Receipt) :
    waitParams (finishMsg msg pre s).1 = waitParams pre ++ waitParams s.1 := by
  unfold finishMsg
  cases h : s.2 <;> simp [waitParams_append, waitParams]

theorem configWrites_finishMsg (msg : String) (pre : List Ev)
    (s : List Ev × Except PyErr Receipt) :
    configWrites (finishMsg msg pre s).1 =
      configWrites pre ++ configWrites s.1 := by
  unfold finishMsg
  cases h : s.2 <;> simp [configWrites_append, configWrites]

theorem receiptPrints_finishMsg (msg : String) (pre : List Ev)
    (s : List Ev × Except PyErr Receipt) :
    receiptPrints (finishMsg msg pre s).1 =
      receiptPrints pre ++ receiptPrints s.1 := by
  unfold finishMsg
  cases h : s.2 <;> simp [receiptPrints_append, receiptPrints]

theorem res_finishMsg (msg : String) (pre : List Ev)
    (s : List Ev × Except PyErr Receipt) :
    (finishMsg msg pre s).2 =
      match s.2 with | .error e => .error e | .ok _ => .ok () := by
  unfold finishMsg
  cases h : s.2 <;> rfl


/-- In every contract write command the uncaught `NameError` on the unbound
`zk_web3` global precedes everything: the event trace is empty (no nonce,
gas-price, estimation, broadcast or wait call is ever made) and the outcome
is the error. -/
theorem runCW_crash (cfg : Config) (env : Env) (orc : Nat → Option Receipt)
    (p : BlockParam) (d? : Option CallData) (m : String) :
    runContractWrite cfg env orc p d? m = ([], .error nameErrorZkWeb3) := rfl

theorem configWrites_runCW (cfg : Config) (env : Env)
    (orc : Nat → Option Receipt) (p : BlockParam) (d? : Option CallData)
    (m : String) :
    configWrites (runContractWrite cfg env orc p d? m).1 = [] := rfl

theorem noncePs_deploy_implementation (cfg : Config) (env : Env)
    (orc : Nat → Option Receipt) (bytecode : List Nat) :
    noncePs (deploy_implementation cfg env orc bytecode).1 =
      [BlockParam.pending] := by
  simp only [deploy_implementation]
  rw [noncePs_append, noncePs_submitTx]
  simp [noncePs]

theorem estimatedTxs_deploy_implementation (cfg : Config) (env : Env)
    (orc : Nat → Option Receipt) (bytecode : List Nat) :
    estimatedTxs (deploy_implementation cfg env orc bytecode).1 =
      [implCreateTx cfg env bytecode] := by
  simp only [deploy_implementation]
  rw [estimatedTxs_append, estimatedTxs_submitTx]
  simp [estimatedTxs]

theorem sentTxs_deploy_implementation (cfg : Config) (env : Env)
    (orc : Nat → Option Receipt) (bytecode : List Nat) :
    sentTxs (deploy_implementation cfg env orc bytecode).1 =
      (match env.estimateGas (implCreateTx cfg env bytecode) with
      | .error _ => []
      | .ok g => [⟨⟨implCreateTx cfg env bytecode, g⟩,
          (implCreateTx cfg env bytecode).from_⟩]) := by
  simp only [deploy_implementation]
  rw [sentTxs_append, sentTxs_submitTx]
  cases h : env.estimateGas (implCreateTx cfg env bytecode) <;> simp [sentTxs]

theorem waitParams_deploy_implementation (cfg : Config) (env : Env)
    (orc : Nat → Option Receipt) (bytecode : List Nat) :
    waitParams (deploy_implementation cfg env orc bytecode).1 =
      (match env.estimateGas (implCreateTx cfg env bytecode) with
      | .error _ => []
      | .ok _ => [(RECEIPT_TIMEOUT, RECEIPT_POLL_LATENCY)]) := by
  simp only [deploy_implementation]
  rw [waitParams_append, waitParams_submitTx]
  cases h : env.estimateGas (implCreateTx cfg env bytecode) <;> simp [waitParams]

theorem configWrites_deploy_implementation (cfg : Config) (env : Env)
    (orc : Nat → Option Receipt) (bytecode : List Nat) :
    configWrites (deploy_implementation cfg env orc bytecode).1 = [] := by
  simp only [deploy_implementation]
  rw [configWrites_append, configWrites_submitTx]
  simp [configWrites]

theorem receiptPrints_deploy_implementation (cfg : Config) (env : Env)
    (orc : Nat → Option Receipt) (bytecode : List Nat) :
    receiptPrints (deploy_implementation cfg env orc bytecode).1 = [] := by
  simp only [deploy_implementation]
  rw [receiptPrints_append, receiptPrints_submitTx]
  simp [receiptPrints]

theorem res_deploy_implementation (cfg : Config) (env : Env)
    (orc : Nat → Option Receipt) (bytecode : List Nat) :
    (deploy_implementation cfg env orc bytecode).2 =
      (submitTx env orc (implCreateTx cfg env bytecode)).2.map
        (fun r => r.contractAddress) := rfl

theorem noncePs_deploy_proxy (cfg : Config) (env : Env)
    (orc : Nat → Option Receipt) (ia : List Nat) :
    noncePs (deploy_proxy cfg env orc ia).1 =
      if env.fileExists proxyArtifactPath then [BlockParam.pending] else [] := by
  simp only [deploy_proxy]
  cases h : env.fileExists proxyArtifactPath
  · simp [h, noncePs]
  · rw [if_pos rfl, if_pos rfl, noncePs_append, noncePs_submitTx]
    simp [noncePs]

theorem estimatedTxs_deploy_proxy (cfg : Config) (env : Env)
    (orc : Nat → Option Receipt) (ia : List Nat) :
    estimatedTxs (deploy_proxy cfg env orc ia).1 =
      if env.fileExists proxyArtifactPath then [proxyCreateTx cfg env ia]
      else [] := by
  simp only [deploy_proxy]
  cases h : env.fileExists proxyArtifactPath
  · simp [h, estimatedTxs]
  · rw [if_pos rfl, if_pos rfl, estimatedTxs_append, estimatedTxs_submitTx]
    simp [estimatedTxs]

theorem sentTxs_deploy_proxy (cfg : Config) (env : Env)
    (orc : Nat → Option Receipt) (ia : List Nat) :
    sentTxs (deploy_proxy cfg env orc ia).1 =
      if env.fileExists proxyArtifactPath then
        (match env.estimateGas (proxyCreateTx cfg env ia) with
        | .error _ => []
        | .ok g => [⟨⟨proxyCreateTx cfg env ia, g⟩,
            (proxyCreateTx cfg env ia).from_⟩])
      else [] := by
  simp only [deploy_proxy]
  cases h : env.fileExists proxyArtifactPath
  · simp [h, sentTxs]
  · rw [if_pos rfl, if_pos rfl, sentTxs_append, sentTxs_submitTx]
    cases h2 : env.estimateGas (proxyCreateTx cfg env ia) <;> simp [sentTxs]

theorem waitParams_deploy_proxy (cfg : Config) (env : Env)
    (orc : Nat → Option Receipt) (ia : List Nat) :
    waitParams (deploy_proxy cfg env orc ia).1 =
      if env.fileExists proxyArtifactPath then
        (match env.estimateGas (proxyCreateTx cfg env ia) with
        | .error _ => []
        | .ok _ => [(RECEIPT_TIMEOUT, RECEIPT_POLL_LATENCY)])
      else [] := by
  simp only [deploy_proxy]
  cases h : env.fileExists proxyArtifactPath
  · simp [h, waitParams]
  · rw [if_pos rfl, if_pos rfl, waitParams_append, waitParams_submitTx]
    cases h2 : env.estimateGas (proxyCreateTx cfg env ia) <;> simp [waitParams]

theorem configWrites_deploy_proxy (cfg : Config) (env : Env)
    (orc : Nat → Option Receipt) (ia : List Nat) :
    configWrites (deploy_proxy cfg env orc ia).1 = [] := by
  simp only [deploy_proxy]
  cases h : env.fileExists proxyArtifactPath
  · simp [h, configWrites]
  · rw [if_pos rfl, configWrites_append, configWrites_submitTx]
    simp [configWrites]

theorem receiptPrints_deploy_proxy (cfg : Config) (env : Env)
    (orc : Nat → Option Receipt) (ia : List Nat) :
    receiptPrints (deploy_proxy cfg env orc ia).1 = [] := by
  simp only [deploy_proxy]
  cases h : env.fileExists proxyArtifactPath
  · simp [h, receiptPrints]
  · rw [if_pos rfl, receiptPrints_append, receiptPrints_submitTx]
    simp [receiptPrints]

theorem res_deploy_proxy (cfg : Config) (env : Env)
    (orc : Nat → Option Receipt) (ia : List Nat) :
    (deploy_proxy cfg env orc ia).2 =
      if env.fileExists proxyArtifactPath then
        (submitTx env orc (proxyCreateTx cfg env ia)).2.map
          (fun r => r.contractAddress)
      else .error (.exited 1) := by
  simp only [deploy_proxy]
  cases h : env.fileExists proxyArtifactPath <;> simp [h]

theorem noncePs_mint_mock_usdt (cfg : Config) (env : Env)
    (orc : Nat → Option Receipt) (address : List Nat) :
    noncePs (mint_mock_usdt cfg env orc address).1 = [BlockParam.pending] := by
  simp only [mint_mock_usdt]
  cases h : env.fileExists mockUsdtPath
  · simp [h, noncePs, initRpcWriteEvs]
  · rw [if_pos rfl, noncePs_finishWrite, noncePs_submitTx]
    simp [noncePs_append, noncePs, initRpcWriteEvs]

theorem estimatedTxs_mint_mock_usdt (cfg : Config) (env : Env)
    (orc : Nat → Option Receipt) (address : List Nat) :
    estimatedTxs (mint_mock_usdt cfg env orc address).1 =
      if env.fileExists mockUsdtPath then [mintTx cfg env address] else [] := by
  simp only [mint_mock_usdt]
  cases h : env.fileExists mockUsdtPath
  · simp [h, estimatedTxs, initRpcWriteEvs]
  · rw [if_pos rfl, if_pos rfl, estimatedTxs_finishWrite, estimatedTxs_submitTx]
    simp [estimatedTxs_append, estimatedTxs, initRpcWriteEvs]

theorem sentTxs_mint_mock_usdt (cfg : Config) (env : Env)
    (orc : Nat → Option Receipt) (address : List Nat) :
    sentTxs (mint_mock_usdt cfg env orc address).1 =
      if env.fileExists mockUsdtPath then
        (match env.estimateGas (mintTx cfg env address) with
        | .error _ => []
        | .ok g => [⟨⟨mintTx cfg env address, g⟩,
            (mintTx cfg env address).from_⟩])
      else [] := by
  simp only [mint_mock_usdt]
  cases h : env.fileExists mockUsdtPath
  · simp [h, sentTxs, initRpcWriteEvs]
  · rw [if_pos rfl, if_pos rfl, sentTxs_finishWrite, sentTxs_submitTx]
    cases h2 : env.estimateGas (mintTx cfg env address) <;>
      simp [sentTxs_append, sentTxs, initRpcWriteEvs]

theorem waitParams_mint_mock_usdt (cfg : Config) (env : Env)
    (orc : Nat → Option Receipt) (address : List Nat) :
    waitParams (mint_mock_usdt cfg env orc address).1 =
      if env.fileExists mockUsdtPath then
        (match env.estimateGas (mintTx cfg env address) with
        | .error _ => []
        | .ok _ => [(RECEIPT_TIMEOUT, RECEIPT_POLL_LATENCY)])
      else [] := by
  simp only [mint_mock_usdt]
  cases h : env.fileExists mockUsdtPath
  · simp [h, waitParams, initRpcWriteEvs]
  · rw [if_pos rfl, if_pos rfl, waitParams_finishWrite, waitParams_submitTx]
    cases h2 : env.estimateGas (mintTx cfg env address) <;>
      simp [waitParams_append, waitParams, initRpcWriteEvs]

theorem configWrites_mint_mock_usdt (cfg : Config) (env : Env)
    (orc : Nat → Option Receipt) (address : List Nat) :
    configWrites (mint_mock_usdt cfg env orc address).1 = [] := by
  simp only [mint_mock_usdt]
  cases h : env.fileExists mockUsdtPath
  · simp [h, configWrites, initRpcWriteEvs]
  · rw [if_pos rfl, configWrites_finishWrite, configWrites_submitTx]
    simp [configWrites_append, configWrites, initRpcWriteEvs]

theorem receiptPrints_mint_mock_usdt (cfg : Config) (env : Env)
    (orc : Nat → Option Receipt) (address : List Nat) :
    receiptPrints (mint_mock_usdt cfg env orc address).1 =
      if env.fileExists mockUsdtPath then
        (match (submitTx env orc (mintTx cfg env address)).2 with
        | .error _ => []
        | .ok r => [r])
      else [] := by
  simp only [mint_mock_usdt]
  cases h : env.fileExists mockUsdtPath
  · simp [h, receiptPrints, initRpcWriteEvs]
  · rw [if_pos rfl, if_pos rfl, receiptPrints_finishWrite, receiptPrints_submitTx]
    cases h2 : (submitTx env orc (mintTx cfg env address)).2 <;>
      simp [receiptPrints_append, receiptPrints, initRpcWriteEvs, h2]

theorem res_mint_mock_usdt (cfg : Config) (env : Env)
    (orc : Nat → Option Receipt) (address : List Nat) :
    (mint_mock_usdt cfg env orc address).2 =
      if env.fileExists mockUsdtPath then
        (match (submitTx env orc (mintTx cfg env address)).2 with
        | .error e => .error e
        | .ok _ => .ok ())
      else .error (.exception "FileNotFoundError") := by
  simp only [mint_mock_usdt]
  cases h : env.fileExists mockUsdtPath
  · simp [h]
  · rw [if_pos rfl, if_pos rfl, res_finishWrite]

theorem noncePs_deploy_mock_usdt (cfg : Config) (env : Env)
    (orc : Nat → Option Receipt) :
    noncePs (deploy_mock_usdt cfg env orc).1 = [BlockParam.pending] := by
  simp only [deploy_mock_usdt]
  cases h : env.fileExists mockUsdtPath
  · simp [h, noncePs, initRpcWriteEvs]
  · rw [if_pos rfl, noncePs_finishMsg, noncePs_submitTx]
    simp [noncePs_append, noncePs, initRpcWriteEvs]

theorem estimatedTxs_deploy_mock_usdt (cfg : Config) (env : Env)
    (orc : Nat → Option Receipt) :
    estimatedTxs (deploy_mock_usdt cfg env orc).1 =
      if env.fileExists mockUsdtPath then [mockCreateTx cfg env] else [] := by
  simp only [deploy_mock_usdt]
  cases h : env.fileExists mockUsdtPath
  · simp [h, estimatedTxs, initRpcWriteEvs]
  · rw [if_pos rfl, if_pos rfl, estimatedTxs_finishMsg, estimatedTxs_submitTx]
    simp [estimatedTxs_append, estimatedTxs, initRpcWriteEvs]

theorem sentTxs_deploy_mock_usdt (cfg : Config) (env : Env)
    (orc : Nat → Option Receipt) :
    sentTxs (deploy_mock_usdt cfg env orc).1 =
      if env.fileExists mockUsdtPath then
        (match env.estimateGas (mockCreateTx cfg env) with
        | .error _ => []
        | .ok g => [⟨⟨mockCreateTx cfg env, g⟩, (mockCreateTx cfg env).from_⟩])
      else [] := by
  simp only [deploy_mock_usdt]
  cases h : env.fileExists mockUsdtPath
  · simp [h, sentTxs, initRpcWriteEvs]
  · rw [if_pos rfl, if_pos rfl, sentTxs_finishMsg, sentTxs_submitTx]
    cases h2 : env.estimateGas (mockCreateTx cfg env) <;>
      simp [sentTxs_append, sentTxs, initRpcWriteEvs]

theorem waitParams_deploy_mock_usdt (cfg : Config) (env : Env)
    (orc : Nat → Option Receipt) :
    waitParams (deploy_mock_usdt cfg env orc).1 =
      if env.fileExists mockUsdtPath then
        (match env.estimateGas (mockCreateTx cfg env) with
        | .error _ => []
        | .ok _ => [(RECEIPT_TIMEOUT, RECEIPT_POLL_LATENCY)])
      else [] := by
  simp only [deploy_mock_usdt]
  cases h : env.fileExists mockUsdtPath
  · simp [h, waitParams, initRpcWriteEvs]
  · rw [if_pos rfl, if_pos rfl, waitParams_finishMsg, waitParams_submitTx]
    cases h2 : env.estimateGas (mockCreateTx cfg env) <;>
      simp [waitParams_append, waitParams, initRpcWriteEvs]

theorem configWrites_deploy_mock_usdt (cfg : Config) (env : Env)
    (orc : Nat → Option Receipt) :
    configWrites (deploy_mock_usdt cfg env orc).1 = [] := by
  simp only [deploy_mock_usdt]
  cases h : env.fileExists mockUsdtPath
  · simp [h, configWrites, initRpcWriteEvs]
  · rw [if_pos rfl, configWrites_finishMsg, configWrites_submitTx]
    simp [configWrites_append, configWrites, initRpcWriteEvs]

theorem receiptPrints_deploy_mock_usdt (cfg : Config) (env : Env)
    (orc : Nat → Option Receipt) :
    receiptPrints (deploy_mock_usdt cfg env orc).1 = [] := by
  simp only [deploy_mock_usdt]
  cases h : env.fileExists mockUsdtPath
  · simp [h, receiptPrints, initRpcWriteEvs]
  · rw [if_pos rfl, receiptPrints_finishMsg, receiptPrints_submitTx]
    simp [receiptPrints_append, receiptPrints, initRpcWriteEvs]

theorem res_deploy_mock_usdt (cfg : Config) (env : Env)
    (orc : Nat → Option Receipt) :
    (deploy_mock_usdt cfg env orc).2 =
      if env.fileExists mockUsdtPath then
        (match (submitTx env orc (mockCreateTx cfg env)).2 with
        | .error e => .error e
        | .ok _ => .ok ())
      else .error (.exception "FileNotFoundError") := by
  simp only [deploy_mock_usdt]
  cases h : env.fileExists mockUsdtPath
  · simp [h]
  · rw [if_pos rfl, if_pos rfl, res_finishMsg]

/-- Concrete keccak stand-in used for closed evaluations (all nibbles 0). -/
def kec0 : List Nat → List Nat := fun _ => List.replicate 64 0

/-- Concrete configuration used for closed evaluations. -/
def cfg0 : Config :=
  ⟨codes "0x1111111111111111111111111111111111111111",
   "http://localhost:3050", codes "0xkey"⟩

/-- Concrete receipt used for closed evaluations. -/
def rc0 : Receipt := ⟨codes "0x2222222222222222222222222222222222222222", 1⟩

/-- Concrete environment used for closed evaluations. -/
def env0 : Env :=
  { chainId := 300
    transactionCount := fun p => match p with | .pending => 7 | .latest => 6
    gasPrice := 25
    estimateGas := fun _ => .ok 100000
    deriveAddr := fun _ => codes "0x3333333333333333333333333333333333333333"
    fileExists := fun _ => true
    fileBytecode := fun _ => [0, 1, 2]
    urandomByte := fun _ => 42
    callResult := fun _ => "" }

/-- Environment whose file system is empty (every artifact is absent). -/
def envNoFiles : Env :=
  { env0 with fileExists := fun _ => false }

/-- Oracle that produces a receipt at the first poll. -/
def orcYes : Nat → Option Receipt := fun _ => some rc0

/-- Oracle that never produces a receipt (timeout scenario). -/
def orcNo : Nat → Option Receipt := fun _ => none

/-- Concrete `createOrder` arguments used for closed evaluations. -/
def coArgs0 : CreateOrderArgs :=
  ⟨codes "0x4444444444444444444444444444444444444444",
   codes "0x5555555555555555555555555555555555555555",
   codes "100", codes "5",
   codes "0x6666666666666666666666666666666666666666",
   codes "1", codes "0", false, none, codes "0", false, codes ""⟩

/-- Claim C1, counterexample: the claim says the transaction pipeline's
first step fetches the sender's nonce from the pending state for every write
operation, but a concrete `createOrder` run performs no nonce fetch at all:
it raises an uncaught `NameError` on the unbound module global `zk_web3`
(the handler calls only `initialize_write_variables`, never
`initialize_rpc_variables`) before making any network call. -/
theorem claim_C1_counterexample :
    noncePs (create_order kec0 cfg0 env0 orcYes coArgs0).1 = [] ∧
    (create_order kec0 cfg0 env0 orcYes coArgs0).2 =
      Except.error nameErrorZkWeb3 :=
  ⟨rfl, rfl⟩

/-- Claim C1, amended: the flows that actually submit a transaction —
`deploy_implementation`, `deploy_proxy`, `deployMockUSDT` and `mintMockUSDT`
— fetch the sender's nonce from the *pending* state, and the nonce of the
built transaction is exactly the node-reported transaction count for that
state, never a locally tracked counter; the contract write commands
(`createOrder`, `setProvider`, `changeOrder`, `stopOrder`, `fulfill`,
`closeOrders`, `setZKVariables`, `setTransfersVariables`,
`setFeesVariables`, `setCoreVariables`) never reach a nonce fetch: each
raises an uncaught `NameError` on the unbound global `zk_web3` before any
network call, so its in-source latest-state nonce fetch is dead code. -/
theorem claim_C1_nonce_sources :
    (∀ (cfg : Config) (env : Env) (orc : Nat → Option Receipt)
        (address : List Nat),
      noncePs (mint_mock_usdt cfg env orc address).1 = [BlockParam.pending] ∧
      (estimatedTxs (mint_mock_usdt cfg env orc address).1).map
          (fun tx => tx.nonce) =
        (if env.fileExists mockUsdtPath then
          [env.transactionCount BlockParam.pending] else [])) ∧
    (∀ (cfg : Config) (env : Env) (orc : Nat → Option Receipt),
      noncePs (deploy_mock_usdt cfg env orc).1 = [BlockParam.pending] ∧
      (estimatedTxs (deploy_mock_usdt cfg env orc).1).map (fun tx => tx.nonce) =
        (if env.fileExists mockUsdtPath then
          [env.transactionCount BlockParam.pending] else [])) ∧
    (∀ (cfg : Config) (env : Env) (orc : Nat → Option Receipt)
        (bytecode : List Nat),
      noncePs (deploy_implementation cfg env orc bytecode).1 =
        [BlockParam.pending] ∧
      (estimatedTxs (deploy_implementation cfg env orc bytecode).1).map
          (fun tx => tx.nonce) =
        [env.transactionCount BlockParam.pending]) ∧
    (∀ (cfg : Config) (env : Env) (orc : Nat → Option Receipt) (ia : List Nat),
      noncePs (deploy_proxy cfg env orc ia).1 =
        (if env.fileExists proxyArtifactPath then [BlockParam.pending] else []) ∧
      (estimatedTxs (deploy_proxy cfg env orc ia).1).map (fun tx => tx.nonce) =
        (if env.fileExists proxyArtifactPath then
          [env.transactionCount BlockParam.pending] else [])) ∧
    (∀ (kec : List Nat → List Nat) (cfg : Config) (env : Env)
        (orc : Nat → Option Receipt) (a : CreateOrderArgs),
      noncePs (create_order kec cfg env orc a).1 = [] ∧
      (create_order kec cfg env orc a).2 = Except.error nameErrorZkWeb3) ∧
    (∀ (kec : List Nat → List Nat) (cfg : Config) (env : Env)
        (orc : Nat → Option Receipt) (a : SetProviderArgs),
      noncePs (set_provider kec cfg env orc a).1 = [] ∧
      (set_provider kec cfg env orc a).2 = Except.error nameErrorZkWeb3) ∧
    (∀ (kec : List Nat → List Nat) (cfg : Config) (env : Env)
        (orc : Nat → Option Receipt) (a : ChangeOrderArgs),
      noncePs (change_order kec cfg env orc a).1 = [] ∧
      (change_order kec cfg env orc a).2 = Except.error nameErrorZkWeb3) ∧
    (∀ (cfg : Config) (env : Env) (orc : Nat → Option Receipt)
        (orderId : List Nat),
      noncePs (stop_order cfg env orc orderId).1 = [] ∧
      (stop_order cfg env orc orderId).2 = Except.error nameErrorZkWeb3) ∧
    (∀ (cfg : Config) (env : Env) (orc : Nat → Option Receipt)
        (orderIds : List (List Nat)) (total : List Nat),
      noncePs (fulfill cfg env orc orderIds total).1 = [] ∧
      (fulfill cfg env orc orderIds total).2 = Except.error nameErrorZkWeb3) ∧
    (∀ (cfg : Config) (env : Env) (orc : Nat → Option Receipt)
        (proof publicValues : List Nat),
      noncePs (close_orders cfg env orc proof publicValues).1 = [] ∧
      (close_orders cfg env orc proof publicValues).2 =
        Except.error nameErrorZkWeb3) ∧
    (∀ (kec : List Nat → List Nat) (cfg : Config) (env : Env)
        (orc : Nat → Option Receipt) (tr v vk : List Nat),
      noncePs (set_zk_variables kec cfg env orc tr v vk).1 = [] ∧
      (set_zk_variables kec cfg env orc tr v vk).2 =
        Except.error nameErrorZkWeb3) ∧
    (∀ (kec : List Nat → List Nat) (cfg : Config) (env : Env)
        (orc : Nat → Option Receipt) (u sp sw : List Nat),
      noncePs (set_transfers_variables kec cfg env orc u sp sw).1 = [] ∧
      (set_transfers_variables kec cfg env orc u sp sw).2 =
        Except.error nameErrorZkWeb3) ∧
    (∀ (cfg : Config) (env : Env) (orc : Nat → Option Receipt)
        (rf fp : List Nat),
      noncePs (set_fees_variables cfg env orc rf fp).1 = [] ∧
      (set_fees_variables cfg env orc rf fp).2 =
        Except.error nameErrorZkWeb3) ∧
    (∀ (cfg : Config) (env : Env) (orc : Nat → Option Receipt)
        (bi act lea sh mo rc : List Nat),
      noncePs (set_core_variables cfg env orc bi act lea sh mo rc).1 = [] ∧
      (set_core_variables cfg env orc bi act lea sh mo rc).2 =
        Except.error nameErrorZkWeb3) := by
  refine ⟨?_, ?_, ?_, ?_, ?_, ?_, ?_, ?_, ?_, ?_, ?_, ?_, ?_, ?_⟩
  · intro cfg env orc address
    refine ⟨noncePs_mint_mock_usdt cfg env orc address, ?_⟩
    rw [estimatedTxs_mint_mock_usdt]
    cases h : env.fileExists mockUsdtPath <;> simp [mintTx, buildFnTx]
  · intro cfg env orc
    refine ⟨noncePs_deploy_mock_usdt cfg env orc, ?_⟩
    rw [estimatedTxs_deploy_mock_usdt]
    cases h : env.fileExists mockUsdtPath <;>
      simp [mockCreateTx, buildCreateTx]
  · intro cfg env orc bytecode
    refine ⟨noncePs_deploy_implementation cfg env orc bytecode, ?_⟩
    rw [estimatedTxs_deploy_implementation]
    simp [implCreateTx, buildCreateTx]
  · intro cfg env orc ia
    refine ⟨noncePs_deploy_proxy cfg env orc ia, ?_⟩
    rw [estimatedTxs_deploy_proxy]
    cases h : env.fileExists proxyArtifactPath <;>
      simp [proxyCreateTx, buildCreate2Tx]
  · exact fun kec cfg env orc a => ⟨rfl, rfl⟩
  · exact fun kec cfg env orc a => ⟨rfl, rfl⟩
  · exact fun kec cfg env orc a => ⟨rfl, rfl⟩
  · exact fun cfg env orc orderId => ⟨rfl, rfl⟩
  · exact fun cfg env orc orderIds total => ⟨rfl, rfl⟩
  · exact fun cfg env orc proof publicValues => ⟨rfl, rfl⟩
  · exact fun kec cfg env orc tr v vk => ⟨rfl, rfl⟩
  · exact fun kec cfg env orc u sp sw => ⟨rfl, rfl⟩
  · exact fun cfg env orc rf fp => ⟨rfl, rfl⟩
  · exact fun cfg env orc bi act lea sh mo rc => ⟨rfl, rfl⟩

/-- The gas-estimation discipline of a single run: every estimated
transaction was built with the gas-limit-0 placeholder, every broadcast
transaction was signed with exactly the gas value the node estimated for
that same built transaction, and at most one estimation call is made (and
exactly one whenever something was broadcast). -/
def GasDiscipline (env : Env) (tr : List Ev) : Prop :=
  (∀ tx ∈ estimatedTxs tr, tx.gasLimit = 0) ∧
  (∀ s ∈ sentTxs tr, s.tx.base.gasLimit = 0 ∧
    env.estimateGas s.tx.base = Except.ok s.tx.gasLimit ∧
    s.tx.base ∈ estimatedTxs tr) ∧
  (estimatedTxs tr).length ≤ 1 ∧
  (sentTxs tr ≠ [] → (estimatedTxs tr).length = 1)

/-- Failure propagation of a single run: if the run made its estimation call
at all, then under an estimation failure `e` the run fails with exactly that
error and broadcasts nothing. -/
def EstimateFailureStops {α : Type _} (e : String)
    (run : List Ev × Except PyErr α) : Prop :=
  estimatedTxs run.1 ≠ [] →
    run.2 = Except.error (.exception e) ∧ sentTxs run.1 = []

theorem gasDiscipline_of_shape (env : Env) (tr : List Ev) (tx : UnsignedTx)
    (htx : tx.gasLimit = 0)
    (he : estimatedTxs tr = [] ∧ sentTxs tr = [] ∨
      estimatedTxs tr = [tx] ∧
        sentTxs tr = (match env.estimateGas tx with
          | .error _ => []
          | .ok g => [⟨⟨tx, g⟩, tx.from_⟩])) :
    GasDiscipline env tr := by
  rcases he with ⟨h1, h2⟩ | ⟨h1, h2⟩
  · exact ⟨by simp [h1], by simp [h2], by simp [h1], by simp [h2]⟩
  · refine ⟨?_, ?_, ?_, ?_⟩
    · intro t ht
      rw [h1] at ht
      simp at ht
      rw [ht]
      exact htx
    · intro sg hsg
      rw [h2] at hsg
      cases hg : env.estimateGas tx <;> rw [hg] at hsg
      · simp at hsg
      · simp at hsg
        rw [hsg]
        exact ⟨htx, by rw [hg], by rw [h1]; simp⟩
    · simp [h1]
    · intro _
      simp [h1]

theorem gasDiscipline_mint (cfg : Config) (env : Env)
    (orc : Nat → Option Receipt) (address : List Nat) :
    GasDiscipline env (mint_mock_usdt cfg env orc address).1 := by
  refine gasDiscipline_of_shape env _ (mintTx cfg env address) (by simp [mintTx, buildFnTx]) ?_
  cases h : env.fileExists mockUsdtPath
  · left
    exact ⟨by rw [estimatedTxs_mint_mock_usdt, h]; rfl,
      by rw [sentTxs_mint_mock_usdt, h]; rfl⟩
  · right
    exact ⟨by rw [estimatedTxs_mint_mock_usdt, h]; rfl,
      by rw [sentTxs_mint_mock_usdt, h]; rfl⟩

theorem estFail_mint (cfg : Config) (env : Env) (orc : Nat → Option Receipt)
    (address : List Nat) (e : String)
    (hE : env.estimateGas = fun _ => Except.error e) :
    EstimateFailureStops e (mint_mock_usdt cfg env orc address) := by
  intro hne
  rw [estimatedTxs_mint_mock_usdt] at hne
  cases h : env.fileExists mockUsdtPath <;> rw [h] at hne
  · simp at hne
  · constructor
    · simp [res_mint_mock_usdt, h, res_submitTx, hE]
    · simp [sentTxs_mint_mock_usdt, h, hE]

theorem gasDiscipline_deploy_mock (cfg : Config) (env : Env)
    (orc : Nat → Option Receipt) :
    GasDiscipline env (deploy_mock_usdt cfg env orc).1 := by
  refine gasDiscipline_of_shape env _ (mockCreateTx cfg env) (by simp [mockCreateTx, buildCreateTx]) ?_
  cases h : env.fileExists mockUsdtPath
  · left
    exact ⟨by rw [estimatedTxs_deploy_mock_usdt, h]; rfl,
      by rw [sentTxs_deploy_mock_usdt, h]; rfl⟩
  · right
    exact ⟨by rw [estimatedTxs_deploy_mock_usdt, h]; rfl,
      by rw [sentTxs_deploy_mock_usdt, h]; rfl⟩

theorem estFail_deploy_mock (cfg : Config) (env : Env)
    (orc : Nat → Option Receipt) (e : String)
    (hE : env.estimateGas = fun _ => Except.error e) :
    EstimateFailureStops e (deploy_mock_usdt cfg env orc) := by
  intro hne
  rw [estimatedTxs_deploy_mock_usdt] at hne
  cases h : env.fileExists mockUsdtPath <;> rw [h] at hne
  · simp at hne
  · constructor
    · simp [res_deploy_mock_usdt, h, res_submitTx, hE]
    · simp [sentTxs_deploy_mock_usdt, h, hE]

theorem gasDiscipline_deploy_impl (cfg : Config) (env : Env)
    (orc : Nat → Option Receipt) (bytecode : List Nat) :
    GasDiscipline env (deploy_implementation cfg env orc bytecode).1 := by
  refine gasDiscipline_of_shape env _ (implCreateTx cfg env bytecode)
    (by simp [implCreateTx, buildCreateTx]) ?_
  right
  exact ⟨estimatedTxs_deploy_implementation cfg env orc bytecode,
    sentTxs_deploy_implementation cfg env orc bytecode⟩

theorem estFail_deploy_impl (cfg : Config) (env : Env)
    (orc : Nat → Option Receipt) (bytecode : List Nat) (e : String)
    (hE : env.estimateGas = fun _ => Except.error e) :
    EstimateFailureStops e (deploy_implementation cfg env orc bytecode) := by
  intro hne
  constructor
  · simp [res_deploy_implementation, res_submitTx, hE, Except.map]
  · simp [sentTxs_deploy_implementation, hE]

theorem gasDiscipline_deploy_proxy (cfg : Config) (env : Env)
    (orc : Nat → Option Receipt) (ia : List Nat) :
    GasDiscipline env (deploy_proxy cfg env orc ia).1 := by
  refine gasDiscipline_of_shape env _ (proxyCreateTx cfg env ia)
    (by simp [proxyCreateTx, buildCreate2Tx]) ?_
  cases h : env.fileExists proxyArtifactPath
  · left
    exact ⟨by rw [estimatedTxs_deploy_proxy, h]; rfl,
      by rw [sentTxs_deploy_proxy, h]; rfl⟩
  · right
    exact ⟨by rw [estimatedTxs_deploy_proxy, h]; rfl,
      by rw [sentTxs_deploy_proxy, h]; rfl⟩

theorem estFail_deploy_proxy (cfg : Config) (env : Env)
    (orc : Nat → Option Receipt) (ia : List Nat) (e : String)
    (hE : env.estimateGas = fun _ => Except.error e) :
    EstimateFailureStops e (deploy_proxy cfg env orc ia) := by
  intro hne
  rw [estimatedTxs_deploy_proxy] at hne
  cases h : env.fileExists proxyArtifactPath <;> rw [h] at hne
  · simp at hne
  · constructor
    · simp [res_deploy_proxy, h, res_submitTx, hE, Except.map]
    · simp [sentTxs_deploy_proxy, h, hE]

/-- Claim C2, counterexample: the claim says every transaction-submitting
operation makes exactly one gas-estimation call against its built
transaction, but a concrete `createOrder` run builds and estimates nothing:
it raises an uncaught `NameError` on the unbound module global `zk_web3`
before any network call, so no transaction is estimated or broadcast. -/
theorem claim_C2_counterexample :
    estimatedTxs (create_order kec0 cfg0 env0 orcYes coArgs0).1 = [] ∧
    sentTxs (create_order kec0 cfg0 env0 orcYes coArgs0).1 = [] ∧
    (create_order kec0 cfg0 env0 orcYes coArgs0).2 =
      Except.error nameErrorZkWeb3 :=
  ⟨rfl, rfl, rfl⟩

/-- Claim C2, amended: the flows that actually submit a transaction —
`mintMockUSDT`, `deployMockUSDT`, `deploy_implementation` and `deploy_proxy`
— build the unsigned transaction with gas limit 0 as a placeholder, make
exactly one gas-estimation call against that built transaction, sign with
the estimated value backfilled, and let an estimation failure propagate to
the caller unmodified with no retry and no broadcast; the contract write
commands never build or estimate anything: each raises an uncaught
`NameError` on the unbound global `zk_web3` before reaching the pipeline. -/
theorem claim_C2_gas_estimation :
    (∀ (cfg : Config) (env : Env) (orc : Nat → Option Receipt)
        (address : List Nat),
      GasDiscipline env (mint_mock_usdt cfg env orc address).1 ∧
      ∀ e, env.estimateGas = (fun _ => Except.error e) →
        EstimateFailureStops e (mint_mock_usdt cfg env orc address)) ∧
    (∀ (cfg : Config) (env : Env) (orc : Nat → Option Receipt),
      GasDiscipline env (deploy_mock_usdt cfg env orc).1 ∧
      ∀ e, env.estimateGas = (fun _ => Except.error e) →
        EstimateFailureStops e (deploy_mock_usdt cfg env orc)) ∧
    (∀ (cfg : Config) (env : Env) (orc : Nat → Option Receipt)
        (bytecode : List Nat),
      GasDiscipline env (deploy_implementation cfg env orc bytecode).1 ∧
      ∀ e, env.estimateGas = (fun _ => Except.error e) →
        EstimateFailureStops e (deploy_implementation cfg env orc bytecode)) ∧
    (∀ (cfg : Config) (env : Env) (orc : Nat → Option Receipt) (ia : List Nat),
      GasDiscipline env (deploy_proxy cfg env orc ia).1 ∧
      ∀ e, env.estimateGas = (fun _ => Except.error e) →
        EstimateFailureStops e (deploy_proxy cfg env orc ia)) ∧
    (∀ (kec : List Nat → List Nat) (cfg : Config) (env : Env)
        (orc : Nat → Option Receipt) (a : CreateOrderArgs),
      estimatedTxs (create_order kec cfg env orc a).1 = [] ∧
      sentTxs (create_order kec cfg env orc a).1 = [] ∧
      (create_order kec cfg env orc a).2 = Except.error nameErrorZkWeb3) ∧
    (∀ (kec : List Nat → List Nat) (cfg : Config) (env : Env)
        (orc : Nat → Option Receipt) (a : SetProviderArgs),
      estimatedTxs (set_provider kec cfg env orc a).1 = [] ∧
      sentTxs (set_provider kec cfg env orc a).1 = [] ∧
      (set_provider kec cfg env orc a).2 = Except.error nameErrorZkWeb3) ∧
    (∀ (kec : List Nat → List Nat) (cfg : Config) (env : Env)
        (orc : Nat → Option Receipt) (a : ChangeOrderArgs),
      estimatedTxs (change_order kec cfg env orc a).1 = [] ∧
      sentTxs (change_order kec cfg env orc a).1 = [] ∧
      (change_order kec cfg env orc a).2 = Except.error nameErrorZkWeb3) ∧
    (∀ (cfg : Config) (env : Env) (orc : Nat → Option Receipt)
        (orderId : List Nat),
      estimatedTxs (stop_order cfg env orc orderId).1 = [] ∧
      sentTxs (stop_order cfg env orc orderId).1 = [] ∧
      (stop_order cfg env orc orderId).2 = Except.error nameErrorZkWeb3) ∧
    (∀ (cfg : Config) (env : Env) (orc : Nat → Option Receipt)
        (orderIds : List (List Nat)) (total : List Nat),
      estimatedTxs (fulfill cfg env orc orderIds total).1 = [] ∧
      sentTxs (fulfill cfg env orc orderIds total).1 = [] ∧
      (fulfill cfg env orc orderIds total).2 = Except.error nameErrorZkWeb3) ∧
    (∀ (cfg : Config) (env : Env) (orc : Nat → Option Receipt)
        (proof publicValues : List Nat),
      estimatedTxs (close_orders cfg env orc proof publicValues).1 = [] ∧
      sentTxs (close_orders cfg env orc proof publicValues).1 = [] ∧
      (close_orders cfg env orc proof publicValues).2 =
        Except.error nameErrorZkWeb3) ∧
    (∀ (kec : List Nat → List Nat) (cfg : Config) (env : Env)
        (orc : Nat → Option Receipt) (tr v vk : List Nat),
      estimatedTxs (set_zk_variables kec cfg env orc tr v vk).1 = [] ∧
      sentTxs (set_zk_variables kec cfg env orc tr v vk).1 = [] ∧
      (set_zk_variables kec cfg env orc tr v vk).2 =
        Except.error nameErrorZkWeb3) ∧
    (∀ (kec : List Nat → List Nat) (cfg : Config) (env : Env)
        (orc : Nat → Option Receipt) (u sp sw : List Nat),
      estimatedTxs (set_transfers_variables kec cfg env orc u sp sw).1 = [] ∧
      sentTxs (set_transfers_variables kec cfg env orc u sp sw).1 = [] ∧
      (set_transfers_variables kec cfg env orc u sp sw).2 =
        Except.error nameErrorZkWeb3) ∧
    (∀ (cfg : Config) (env : Env) (orc : Nat → Option Receipt)
        (rf fp : List Nat),
      estimatedTxs (set_fees_variables cfg env orc rf fp).1 = [] ∧
      sentTxs (set_fees_variables cfg env orc rf fp).1 = [] ∧
      (set_fees_variables cfg env orc rf fp).2 =
        Except.error nameErrorZkWeb3) ∧
    (∀ (cfg : Config) (env : Env) (orc : Nat → Option Receipt)
        (bi act lea sh mo rc : List Nat),
      estimatedTxs (set_core_variables cfg env orc bi act lea sh mo rc).1 = [] ∧
      sentTxs (set_core_variables cfg env orc bi act lea sh mo rc).1 = [] ∧
      (set_core_variables cfg env orc bi act lea sh mo rc).2 =
        Except.error nameErrorZkWeb3) := by
  refine ⟨?_, ?_, ?_, ?_, ?_, ?_, ?_, ?_, ?_, ?_, ?_, ?_, ?_, ?_⟩
  · exact fun cfg env orc address =>
      ⟨gasDiscipline_mint cfg env orc address,
       fun e hE => estFail_mint cfg env orc address e hE⟩
  · exact fun cfg env orc =>
      ⟨gasDiscipline_deploy_mock cfg env orc,
       fun e hE => estFail_deploy_mock cfg env orc e hE⟩
  · exact fun cfg env orc bytecode =>
      ⟨gasDiscipline_deploy_impl cfg env orc bytecode,
       fun e hE => estFail_deploy_impl cfg env orc bytecode e hE⟩
  · exact fun cfg env orc ia =>
      ⟨gasDiscipline_deploy_proxy cfg env orc ia,
       fun e hE => estFail_deploy_proxy cfg env orc ia e hE⟩
  · exact fun kec cfg env orc a => ⟨rfl, rfl, rfl⟩
  · exact fun kec cfg env orc a => ⟨rfl, rfl, rfl⟩
  · exact fun kec cfg env orc a => ⟨rfl, rfl, rfl⟩
  · exact fun cfg env orc orderId => ⟨rfl, rfl, rfl⟩
  · exact fun cfg env orc orderIds total => ⟨rfl, rfl, rfl⟩
  · exact fun cfg env orc proof publicValues => ⟨rfl, rfl, rfl⟩
  · exact fun kec cfg env orc tr v vk => ⟨rfl, rfl, rfl⟩
  · exact fun kec cfg env orc u sp sw => ⟨rfl, rfl, rfl⟩
  · exact fun cfg env orc rf fp => ⟨rfl, rfl, rfl⟩
  · exact fun cfg env orc bi act lea sh mo rc => ⟨rfl, rfl, rfl⟩

/-- Environment whose node rejects every gas estimation. -/
def envEstFail : Env :=
  { env0 with estimateGas := fun _ => Except.error "execution reverted" }

/-- Witness for claim C2: at a concrete `deploy_implementation` run against
a node that rejects estimation, the failure propagates unmodified and
nothing is broadcast. -/
theorem claim_C2_witness :
    (deploy_implementation cfg0 envEstFail orcYes [0, 1]).2 =
      Except.error (.exception "execution reverted") ∧
    sentTxs (deploy_implementation cfg0 envEstFail orcYes [0, 1]).1 = [] :=
  ((claim_C2_gas_estimation.2.2.1 cfg0 envEstFail orcYes [0, 1]).2
    "execution reverted" rfl) (by decide)

theorem buildTransfer_outToken (kec : List Nat → List Nat) (ta : TransferArgs)
    (t : Transfer) (hb : buildTransfer kec ta = some t) :
    (match ta.outToken with
     | some s => if s = [] then some zeroAddressCodes else to_checksum_address kec s
     | none => some zeroAddressCodes) = some t.outToken := by
  unfold buildTransfer at hb
  split at hb
  · rename_i r ci af ot mo sd hA hB hC hD hEq hF
    cases hb
    exact hD
  · simp at hb

/-- Claim C4, amended: in transfer-intent assembly (used by both
`createOrder` and `changeOrder`), an omitted output-token flag — and equally
a flag provided with an empty (Python-falsy) value — yields the all-zero
address in the `outToken` field, while a flag provided with a nonempty value
yields exactly the checksummed form of the provided address; and both
commands embed the assembled transfer in their encoded call data. -/
theorem claim_C4_outToken :
    (∀ (kec : List Nat → List Nat) (ta : TransferArgs) (t : Transfer),
      ta.outToken = none → buildTransfer kec ta = some t →
        t.outToken = zeroAddressCodes) ∧
    (∀ (kec : List Nat → List Nat) (ta : TransferArgs) (t : Transfer),
      ta.outToken = some [] → buildTransfer kec ta = some t →
        t.outToken = zeroAddressCodes) ∧
    (∀ (kec : List Nat → List Nat) (ta : TransferArgs) (t : Transfer)
        (sAddr : List Nat),
      ta.outToken = some sAddr → sAddr ≠ [] → buildTransfer kec ta = some t →
        to_checksum_address kec sAddr = some t.outToken) ∧
    (∀ (kec : List Nat → List Nat) (a : CreateOrderArgs) (d : CallData),
      create_order_calldata kec a = some d →
        ∃ t, buildTransfer kec (createOrderTA a) = some t ∧
          AbiValue.transferV t ∈ d.args) ∧
    (∀ (kec : List Nat → List Nat) (a : ChangeOrderArgs) (d : CallData),
      change_order_calldata kec a = some d →
        ∃ t, buildTransfer kec (changeOrderTA a) = some t ∧
          AbiValue.transferV t ∈ d.args) := by
  refine ⟨?_, ?_, ?_, ?_, ?_⟩
  · intro kec ta t h0 hb
    have h := buildTransfer_outToken kec ta t hb
    rw [h0] at h
    simpa using h.symm
  · intro kec ta t h0 hb
    have h := buildTransfer_outToken kec ta t hb
    rw [h0] at h
    simpa using h.symm
  · intro kec ta t sAddr hs hne hb
    have h := buildTransfer_outToken kec ta t hb
    rw [hs] at h
    simpa [if_neg hne] using h
  · intro kec a d hd
    unfold create_order_calldata at hd
    split at hd
    · rename_i p r sz rt t hA hB hC hD hEq
      cases hd
      exact ⟨t, hEq, by simp⟩
    · simp at hd
  · intro kec a d hd
    unfold change_order_calldata at hd
    cases hb : buildTransfer kec (changeOrderTA a) <;> rw [hb] at hd
    · simp at hd
    · cases hd
      rename_i t
      exact ⟨t, rfl, by simp⟩

/-- Transfer flags with the output-token flag omitted. -/
def taNone : TransferArgs :=
  ⟨codes "0x6666666666666666666666666666666666666666", codes "1", codes "0",
   false, none, codes "0", false, codes ""⟩

/-- Transfer flags with the output-token flag provided but empty
(`--outToken ""`, an empty string, which is falsy in Python). -/
def taEmpty : TransferArgs :=
  { taNone with outToken := some [] }

/-- Transfer flags with a mixed-case output-token flag provided. -/
def taSome : TransferArgs :=
  { taNone with
    outToken := some (codes "0xABCDEF7877777777777777777777777777777777") }

/-- The transfer assembled from `taNone` (computed). -/
def transferN0 : Transfer :=
  ⟨codes "0x6666666666666666666666666666666666666666", 1, 0, false,
   zeroAddressCodes, 0, false, []⟩

/-- The transfer assembled from `taSome` (computed; `kec0` has no nibble
above 7, so the checksummed form is all lowercase). -/
def transferS0 : Transfer :=
  ⟨codes "0x6666666666666666666666666666666666666666", 1, 0, false,
   codes "0xabcdef7877777777777777777777777777777777", 0, false, []⟩

/-- Claim C4, counterexample: the claim says a provided output-token flag
always yields the checksummed form of the provided address, but with the
flag provided as the empty string the truthiness test sends assembly down
the default branch: the built field is the all-zero address, and the
provided (empty) value has no checksummed form at all. -/
theorem claim_C4_counterexample :
    buildTransfer kec0 taEmpty = some transferN0 ∧
    transferN0.outToken = zeroAddressCodes ∧
    to_checksum_address kec0 [] = none :=
  ⟨by decide, by decide, by decide⟩

/-- Witness for claim C4 at concrete inputs: a provided-but-empty flag
gives the zero address; a provided mixed-case address gives its
checksummed form. -/
theorem claim_C4_witness :
    transferN0.outToken = zeroAddressCodes ∧
    to_checksum_address kec0
        (codes "0xABCDEF7877777777777777777777777777777777") =
      some transferS0.outToken :=
  ⟨claim_C4_outToken.2.1 kec0 taEmpty transferN0 rfl (by decide),
   claim_C4_outToken.2.2.1 kec0 taSome transferS0
     (codes "0xABCDEF7877777777777777777777777777777777") rfl (by decide)
     (by decide)⟩

/-- Claim C10: the `mintMockUSDT` command's estimated (and hence submitted)
transaction always carries the fixed mint call data — recipient is the
signer's own derived address and the amount is exactly 1000000000 — while the
`--address` flag only selects the contract the call is sent to. -/
theorem claim_C10_mint_fixed :
    (∀ (cfg : Config) (env : Env) (orc : Nat → Option Receipt)
        (address : List Nat),
      estimatedTxs (mint_mock_usdt cfg env orc address).1 =
        if env.fileExists mockUsdtPath then [mintTx cfg env address] else []) ∧
    (∀ (cfg : Config) (env : Env) (address : List Nat),
      (mintTx cfg env address).to? = some address ∧
      (mintTx cfg env address).data = some (mintCallData cfg env) ∧
      mintCallData cfg env =
        ⟨"mint", [.addr (env.deriveAddr cfg.private_key), .uint 1000000000]⟩ ∧
      (mintTx cfg env address).from_ = env.deriveAddr cfg.private_key) := by
  constructor
  · exact fun cfg env orc address => estimatedTxs_mint_mock_usdt cfg env orc address
  · intro cfg env address
    refine ⟨?_, ?_, rfl, ?_⟩ <;> simp [mintTx, buildFnTx]

/-- Claim C7, counterexample: the claim says every contract-creation flow
builds its unsigned creation transaction with a fresh random 256-bit salt,
but the implementation-deployment creation transaction carries no salt at
all. -/
theorem claim_C7_counterexample :
    (estimatedTxs (deploy_implementation cfg0 env0 orcYes [0, 1]).1).map
        (fun tx => tx.salt?) = [none] ∧
    (none : Option (List Nat)) ≠ some (urandom32 env0) := by
  constructor
  · rw [estimatedTxs_deploy_implementation]
    simp [implCreateTx, buildCreateTx]
  · simp

/-- Claim C7, amended: only the proxy deployment builds its creation
transaction with the fresh random 256-bit (32-byte) salt drawn from
`os.urandom`; the implementation and mock-token deployments build plain
creation transactions with no salt. -/
theorem claim_C7_salt :
    (∀ (cfg : Config) (env : Env) (orc : Nat → Option Receipt) (ia : List Nat),
      (estimatedTxs (deploy_proxy cfg env orc ia).1).map (fun tx => tx.salt?) =
        if env.fileExists proxyArtifactPath then [some (urandom32 env)]
        else []) ∧
    (∀ env : Env, (urandom32 env).length = 32) ∧
    (∀ (cfg : Config) (env : Env) (orc : Nat → Option Receipt)
        (bytecode : List Nat),
      (estimatedTxs (deploy_implementation cfg env orc bytecode).1).map
        (fun tx => tx.salt?) = [none]) ∧
    (∀ (cfg : Config) (env : Env) (orc : Nat → Option Receipt),
      (estimatedTxs (deploy_mock_usdt cfg env orc).1).map (fun tx => tx.salt?) =
        if env.fileExists mockUsdtPath then [(none : Option (List Nat))]
        else []) := by
  refine ⟨?_, ?_, ?_, ?_⟩
  · intro cfg env orc ia
    rw [estimatedTxs_deploy_proxy]
    cases h : env.fileExists proxyArtifactPath <;>
      simp [proxyCreateTx, buildCreate2Tx]
  · intro env
    simp [urandom32]
  · intro cfg env orc bytecode
    rw [estimatedTxs_deploy_implementation]
    simp [implCreateTx, buildCreateTx]
  · intro cfg env orc
    rw [estimatedTxs_deploy_mock_usdt]
    cases h : env.fileExists mockUsdtPath <;>
      simp [mockCreateTx, buildCreateTx]

theorem fromhexCore_nil : fromhexCore [] = some [] := by
  rw [fromhexCore.eq_def]

theorem fromhexCore_space (c : Nat) (hc : isPySpace c = true) (rest : List Nat) :
    fromhexCore (c :: rest) = fromhexCore rest := by
  rw [fromhexCore.eq_def]
  simp [hc]

theorem fromhexCore_single (c : Nat) (hc : isPySpace c = false) :
    fromhexCore [c] = none := by
  rw [fromhexCore.eq_def]
  simp [hc]

theorem fromhexCore_cons_cons (c d : Nat) (rest : List Nat)
    (hc : isPySpace c = false) :
    fromhexCore (c :: d :: rest) =
      match hexDigitVal c, hexDigitVal d with
      | some hi, some lo => (fromhexCore rest).map (fun bs => (16 * hi + lo) :: bs)
      | _, _ => none := by
  rw [fromhexCore.eq_def]
  simp [hc]

theorem hexDigitVal_eq_none (c : Nat) (h : isHexDigitCode c = false) :
    hexDigitVal c = none := by
  simp only [isHexDigitCode, Bool.or_eq_false_iff, Bool.and_eq_false_iff,
    decide_eq_false_iff_not, not_le] at h
  unfold hexDigitVal
  split
  · exfalso; omega
  split
  · exfalso; omega
  split
  · exfalso; omega
  rfl

theorem hexDigitVal_isSome (c : Nat) (h : isHexDigitCode c = true) :
    ∃ v, hexDigitVal c = some v := by
  simp only [isHexDigitCode, Bool.or_eq_true, Bool.and_eq_true,
    decide_eq_true_eq] at h
  unfold hexDigitVal
  split
  · exact ⟨_, rfl⟩
  split
  · exact ⟨_, rfl⟩
  split
  · exact ⟨_, rfl⟩
  exfalso
  rcases h with (⟨h1, h2⟩ | ⟨h1, h2⟩) | ⟨h1, h2⟩ <;> omega

/-- Hex digits (0-9, a-f, A-F) are never ASCII whitespace. -/
theorem hex_not_space (c : Nat) (h : isHexDigitCode c = true) :
    isPySpace c = false := by
  simp only [isHexDigitCode, Bool.or_eq_true, Bool.and_eq_true,
    decide_eq_true_eq] at h
  simp only [isPySpace, Bool.or_eq_false_iff, Bool.and_eq_false_iff,
    decide_eq_false_iff_not, not_le, beq_eq_false_iff_ne, ne_eq]
  rcases h with (⟨h1, h2⟩ | ⟨h1, h2⟩) | ⟨h1, h2⟩ <;> exact ⟨by omega, by omega⟩

theorem fromhex_nonhex_none : ∀ (s : List Nat) (c : Nat), c ∈ s →
    isHexDigitCode c = false → isPySpace c = false → fromhexCore s = none := by
  intro s
  induction s using fromhexCore.induct with
  | case1 =>
    intro c hc _ _
    simp at hc
  | case2 c0 rest hc0 ih =>
    intro c hc hhex hsp
    rw [fromhexCore_space c0 hc0]
    rcases List.mem_cons.mp hc with rfl | hc2
    · rw [hsp] at hc0
      exact absurd hc0 (by simp)
    · exact ih c hc2 hhex hsp
  | case3 d hd =>
    simp only [Bool.not_eq_true] at hd
    intro c hc hhex hsp
    exact fromhexCore_single d hd
  | case4 c0 hc0 d rest2 hi lo hlo hhi ih =>
    simp only [Bool.not_eq_true] at hc0
    intro c hc hhex hsp
    rw [fromhexCore_cons_cons c0 d rest2 hc0]
    rcases List.mem_cons.mp hc with rfl | hc2
    · rw [hexDigitVal_eq_none c hhex] at hhi
      simp at hhi
    · rcases List.mem_cons.mp hc2 with rfl | hc3
      · rw [hexDigitVal_eq_none c hhex] at hlo
        simp at hlo
      · rw [hhi, hlo, ih c hc3 hhex hsp]
        rfl
  | case5 c0 hc0 d rest2 hnone =>
    simp only [Bool.not_eq_true] at hc0
    intro c hc hhex hsp
    rw [fromhexCore_cons_cons c0 d rest2 hc0]
    cases h1 : hexDigitVal c0 with
    | none => rfl
    | some hi =>
      cases h2 : hexDigitVal d with
      | none => rfl
      | some lo => exact absurd (hnone hi lo h1 h2) (by simp)

theorem fromhex_allHex : ∀ (s : List Nat),
    (∀ c ∈ s, isHexDigitCode c = true) →
    (s.length % 2 = 1 → fromhexCore s = none) ∧
    (s.length % 2 = 0 → ∃ bs, fromhexCore s = some bs) := by
  intro s
  induction s using fromhexCore.induct with
  | case1 =>
    intro _
    exact ⟨by intro h; simp at h, fun _ => ⟨[], fromhexCore_nil⟩⟩
  | case2 c0 rest hc0 ih =>
    intro h
    rw [hex_not_space c0 (h c0 (by simp))] at hc0
    exact absurd hc0 (by simp)
  | case3 d hd =>
    simp only [Bool.not_eq_true] at hd
    intro h
    refine ⟨fun _ => fromhexCore_single d hd, ?_⟩
    intro h0
    simp at h0
  | case4 c0 hc0 d rest2 hi lo hlo hhi ih =>
    simp only [Bool.not_eq_true] at hc0
    intro h
    have ihr := ih (fun c hc => h c (by simp [hc]))
    rw [fromhexCore_cons_cons c0 d rest2 hc0, hhi, hlo]
    constructor
    · intro hodd
      have : rest2.length % 2 = 1 := by simp at hodd; omega
      rw [ihr.1 this]
      rfl
    · intro heven
      have : rest2.length % 2 = 0 := by simp at heven; omega
      obtain ⟨bs, hbs⟩ := ihr.2 this
      exact ⟨(16 * hi + lo) :: bs, by rw [hbs]; rfl⟩
  | case5 c0 hc0 d rest2 hnone =>
    intro h
    obtain ⟨hi, hhi⟩ := hexDigitVal_isSome c0 (h c0 (by simp))
    obtain ⟨lo, hlo⟩ := hexDigitVal_isSome d (h d (by simp))
    exact absurd (hnone hi lo hhi hlo) (by simp)

theorem decodeHexArg_marker (s : List Nat) :
    decodeHexArg (marker0x ++ s) = pyFromhex s := rfl

theorem allHex_startsWith0x_false (s : List Nat)
    (h : ∀ c ∈ s, isHexDigitCode c = true) : startsWith0x s = false := by
  cases s with
  | nil => rfl
  | cons c rest =>
    cases rest with
    | nil => rfl
    | cons d r2 =>
      have hd : d ≠ 120 := by
        intro hd
        have := h d (by simp)
        rw [hd] at this
        exact absurd this (by decide)
      simp [startsWith0x, hd]

theorem decodeHexArg_no_marker (s : List Nat) (h : startsWith0x s = false) :
    decodeHexArg s = pyFromhex s := by
  simp [decodeHexArg, h]

/-- Claim C5, counterexample: the claim says decoding fails on odd-length or
non-hex input, but `"12 34"` — odd length, containing a non-hex space —
decodes successfully to the two bytes 0x12 0x34, because CPython's
`bytes.fromhex` skips ASCII whitespace between byte pairs. -/
theorem claim_C5_counterexample :
    ¬((codes "12 34").all isHexDigitCode = true) ∧
    (codes "12 34").length % 2 = 1 ∧
    decodeHexArg (codes "12 34") = some [18, 52] :=
  ⟨by decide, by decide, by decide⟩

/-- Claim C5, amended: for every hex string (all hex digits), decoding with
the marker prepended agrees with decoding without it; all-hex input of odd
length fails to decode; all-hex input of even length decodes; and the raw
byte decoder fails on any input containing a character that is neither a
hex digit nor the ASCII whitespace (tab, LF, VT, FF, CR, space) it
tolerates between byte pairs. -/
theorem claim_C5_hex_decoding :
    (∀ s : List Nat, (∀ c ∈ s, isHexDigitCode c = true) →
      decodeHexArg (marker0x ++ s) = decodeHexArg s) ∧
    (∀ s : List Nat, (∀ c ∈ s, isHexDigitCode c = true) → s.length % 2 = 1 →
      decodeHexArg s = none) ∧
    (∀ s : List Nat, (∀ c ∈ s, isHexDigitCode c = true) → s.length % 2 = 0 →
      ∃ bs, decodeHexArg s = some bs) ∧
    (∀ (s : List Nat) (c : Nat), c ∈ s → isHexDigitCode c = false →
      isPySpace c = false → pyFromhex s = none) := by
  refine ⟨?_, ?_, ?_, ?_⟩
  · intro s h
    rw [decodeHexArg_marker,
      decodeHexArg_no_marker s (allHex_startsWith0x_false s h)]
  · intro s h hodd
    rw [decodeHexArg_no_marker s (allHex_startsWith0x_false s h)]
    exact (fromhex_allHex s h).1 hodd
  · intro s h heven
    rw [decodeHexArg_no_marker s (allHex_startsWith0x_false s h)]
    exact (fromhex_allHex s h).2 heven
  · exact fromhex_nonhex_none

/-- Witness for claim C5 at concrete inputs. -/
theorem claim_C5_witness :
    decodeHexArg (marker0x ++ codes "abCD12") = decodeHexArg (codes "abCD12") ∧
    decodeHexArg (codes "abc") = none ∧
    (∃ bs, decodeHexArg (codes "1234") = some bs) ∧
    pyFromhex (codes "zz") = none :=
  ⟨claim_C5_hex_decoding.1 (codes "abCD12") (by decide),
   claim_C5_hex_decoding.2.1 (codes "abc") (by decide) (by decide),
   claim_C5_hex_decoding.2.2.1 (codes "1234") (by decide) (by decide),
   claim_C5_hex_decoding.2.2.2 (codes "zz") 122 (by decide) (by decide)
     (by decide)⟩

theorem lowerCode_not_upper (c : Nat) :
    ¬(65 ≤ lowerCode c ∧ lowerCode c ≤ 90) := by
  unfold lowerCode
  split <;> omega

theorem lower_upper_id (c : Nat) (hhex : isHexDigitCode c = true)
    (hnu : ¬(65 ≤ c ∧ c ≤ 90)) :
    lowerCode (upperCode c) = c ∧ isHexDigitCode (upperCode c) = true ∧
    lowerCode c = c := by
  simp only [isHexDigitCode, Bool.or_eq_true, Bool.and_eq_true,
    decide_eq_true_eq] at hhex
  rcases hhex with (⟨h1, h2⟩ | ⟨h1, h2⟩) | ⟨h1, h2⟩
  · have hu : upperCode c = c := by unfold upperCode; rw [if_neg (by omega)]
    have hl : lowerCode c = c := by unfold lowerCode; rw [if_neg (by omega)]
    rw [hu, hl]
    refine ⟨rfl, ?_, rfl⟩
    simp only [isHexDigitCode, Bool.or_eq_true, Bool.and_eq_true,
      decide_eq_true_eq]
    omega
  · have hu : upperCode c = c - 32 := by unfold upperCode; rw [if_pos (by omega)]
    have hl : lowerCode (c - 32) = c := by
      unfold lowerCode
      rw [if_pos (by omega)]
      omega
    have hl2 : lowerCode c = c := by unfold lowerCode; rw [if_neg (by omega)]
    rw [hu, hl, hl2]
    refine ⟨rfl, ?_, rfl⟩
    simp only [isHexDigitCode, Bool.or_eq_true, Bool.and_eq_true,
      decide_eq_true_eq]
    omega
  · exact absurd ⟨by omega, by omega⟩ hnu

/-- A body of 40 lowercase hex digits (as produced by normalisation). -/
def GoodBody (t : List Nat) : Prop :=
  t.length = 40 ∧ ∀ c ∈ t, isHexDigitCode c = true ∧ ¬(65 ≤ c ∧ c ≤ 90)

theorem startsWith0x_shape (l : List Nat) (h : startsWith0x l = true) :
    ∃ rest, l = 48 :: 120 :: rest := by
  cases l with
  | nil => simp [startsWith0x] at h
  | cons a t =>
    cases t with
    | nil => simp [startsWith0x] at h
    | cons b r =>
      simp [startsWith0x] at h
      exact ⟨r, by rw [h.1, h.2]⟩

theorem to_normalized_shape (s norm : List Nat)
    (h : to_normalized_address s = some norm) :
    ∃ t40, norm = 48 :: 120 :: t40 ∧ GoodBody t40 := by
  simp only [to_normalized_address] at h
  cases hsw : startsWith0x (s.map lowerCode) <;> rw [hsw] at h <;>
    simp only [Bool.false_eq_true, if_false, if_true] at h <;> split at h
  · rename_i hcond
    rcases h with ⟨rfl⟩
    refine ⟨s.map lowerCode, rfl, ?_, ?_⟩
    · have := hcond.1
      simpa [marker0x] using this
    · intro c hc
      have hhex : isHexDigitCode c = true := by
        have h2 := hcond.2
        rw [List.all_eq_true] at h2
        exact h2 c (by simpa [marker0x] using hc)
      obtain ⟨c0, _, hc0⟩ := List.mem_map.mp hc
      exact ⟨hhex, hc0 ▸ lowerCode_not_upper c0⟩
  · exact absurd h (by simp)
  · rename_i hcond
    rcases h with ⟨rfl⟩
    obtain ⟨rest, hrest⟩ := startsWith0x_shape _ hsw
    refine ⟨rest, by rw [hrest], ?_, ?_⟩
    · have := hcond.1
      rw [hrest] at this
      simpa using this
    · intro c hc
      have hhex : isHexDigitCode c = true := by
        have h2 := hcond.2
        rw [List.all_eq_true] at h2
        exact h2 c (by rw [hrest]; simpa using hc)
      have hmem : c ∈ s.map lowerCode := by
        rw [hrest]
        simp [hc]
      obtain ⟨c0, _, hc0⟩ := List.mem_map.mp hmem
      exact ⟨hhex, hc0 ▸ lowerCode_not_upper c0⟩
  · exact absurd h (by simp)

theorem map_lower_zipWith (t ns : List Nat)
    (h : ∀ c ∈ t, isHexDigitCode c = true ∧ ¬(65 ≤ c ∧ c ≤ 90)) :
    (List.zipWith (fun c n => if 7 < n then upperCode c else c) t ns).map
        lowerCode = t.take ns.length ∧
    ∀ c2 ∈ List.zipWith (fun c n => if 7 < n then upperCode c else c) t ns,
      isHexDigitCode c2 = true := by
  induction t generalizing ns with
  | nil => simp
  | cons c t ih =>
    cases ns with
    | nil => simp
    | cons n ns =>
      obtain ⟨hc, hcu⟩ := h c (by simp)
      have iht := ih ns (fun c2 hc2 => h c2 (by simp [hc2]))
      constructor
      · simp only [List.zipWith_cons_cons, List.map_cons, List.length_cons,
          List.take_succ_cons]
        rw [iht.1]
        congr 1
        by_cases h7 : 7 < n
        · rw [if_pos h7]
          exact (lower_upper_id c hc hcu).1
        · rw [if_neg h7]
          exact (lower_upper_id c hc hcu).2.2
      · intro c2 hc2
        simp only [List.zipWith_cons_cons, List.mem_cons] at hc2
        rcases hc2 with rfl | hc2
        · by_cases h7 : 7 < n
          · rw [if_pos h7]
            exact (lower_upper_id c hc hcu).2.1
          · rw [if_neg h7]
            exact hc
        · exact iht.2 c2 hc2

theorem checksum_idempotent (kec : List Nat → List Nat)
    (hK : ∀ l, 40 ≤ (kec l).length) (s r : List Nat)
    (hs : to_checksum_address kec s = some r) :
    to_checksum_address kec r = some r := by
  unfold to_checksum_address at hs
  cases hn : to_normalized_address s <;> rw [hn] at hs
  · simp at hs
  · rename_i norm
    simp only [Option.some_inj] at hs
    obtain ⟨t40, hnorm, hlen40, hgood⟩ := to_normalized_shape s norm hn
    subst hnorm
    have hr : r = marker0x ++
        List.zipWith (fun c n => if 7 < n then upperCode c else c) t40
          (kec t40) := by
      rw [← hs]
      rfl
    have hmaplow : r.map lowerCode = 48 :: 120 :: t40 := by
      rw [hr]
      simp only [marker0x, List.cons_append, List.nil_append, List.map_cons]
      rw [(map_lower_zipWith t40 (kec t40) hgood).1]
      rw [List.take_of_length_le (by rw [hlen40]; exact hK t40)]
      norm_num [lowerCode]
    have hnorm_r : to_normalized_address r = some (48 :: 120 :: t40) := by
      simp only [to_normalized_address, hmaplow]
      rw [show startsWith0x (48 :: 120 :: t40) = true from rfl]
      simp only [if_true]
      rw [if_pos ?cond]
      case cond =>
        refine ⟨by simp [hlen40], ?_⟩
        rw [show List.drop 2 (48 :: 120 :: t40) = t40 from rfl]
        exact List.all_eq_true.mpr (fun c hc => (hgood c hc).1)
    unfold to_checksum_address
    rw [hnorm_r]
    simp [hs]


/-- Claim C6: `to_checksum_address` depends only on the lowercase image of
its input, so every letter-case variant of a hex address yields the same
canonical checksummed output; and it is idempotent — normalising an
already-normalised address returns it unchanged (for any keccak producing at
least the 40 nibbles the algorithm consumes, as the real 64-nibble keccak-256
does). -/
theorem claim_C6_checksum :
    (∀ (kec : List Nat → List Nat) (s1 s2 : List Nat),
      s1.map lowerCode = s2.map lowerCode →
      to_checksum_address kec s1 = to_checksum_address kec s2) ∧
    (∀ (kec : List Nat → List Nat) (s r : List Nat),
      (∀ l, 40 ≤ (kec l).length) →
      to_checksum_address kec s = some r →
      to_checksum_address kec r = some r) := by
  constructor
  · intro kec s1 s2 h
    unfold to_checksum_address to_normalized_address
    rw [h]
  · intro kec s r hK hs
    exact checksum_idempotent kec hK s r hs

/-- Witness for claim C6: two case-variants of one address checksum
identically, and checksumming a checksummed output returns it unchanged. -/
theorem claim_C6_witness :
    to_checksum_address kec0
        (codes "0xAbCdEf0123456789aBcDeF0123456789abcdef01") =
      to_checksum_address kec0
        (codes "0XABCDEF0123456789ABCDEF0123456789ABCDEF01") ∧
    to_checksum_address kec0
        (codes "0xabcdef0123456789abcdef0123456789abcdef01") =
      some (codes "0xabcdef0123456789abcdef0123456789abcdef01") :=
  ⟨claim_C6_checksum.1 kec0 _ _ (by decide),
   claim_C6_checksum.2 kec0
     (codes "0xabcdef0123456789abcdef0123456789abcdef01") _
     (fun l => by simp [kec0]) (by decide)⟩

/-- Receipt-wait discipline of a command run returning unit: every wait uses
the fixed 240/0.5 parameters; if the oracle never yields a receipt the run
does not succeed, prints no receipt, and — whenever it reached the waiting
step at all — fails with the timeout error; and any receipt the run prints
is exactly the one obtained by polling. -/
def WaitDiscipline (orc : Nat → Option Receipt)
    (run : List Ev × Except PyErr Unit) : Prop :=
  (∀ q ∈ waitParams run.1, q = (RECEIPT_TIMEOUT, RECEIPT_POLL_LATENCY)) ∧
  ((∀ k, orc k = none) →
    run.2 ≠ Except.ok () ∧ receiptPrints run.1 = [] ∧
    (waitParams run.1 ≠ [] → run.2 = Except.error PyErr.timeExhausted)) ∧
  (∀ r : Receipt, run.2 = Except.ok () → r ∈ receiptPrints run.1 →
    firstSome orc receiptPollCount = some r)

/-- Receipt-wait discipline of a contract-creation helper returning the
deployed address: as above, and a successful result is exactly the
`contractAddress` extracted from the polled receipt. -/
def WaitDisciplineAddr (orc : Nat → Option Receipt)
    (run : List Ev × Except PyErr (List Nat)) : Prop :=
  (∀ q ∈ waitParams run.1, q = (RECEIPT_TIMEOUT, RECEIPT_POLL_LATENCY)) ∧
  ((∀ k, orc k = none) →
    (∀ a, run.2 ≠ Except.ok a) ∧ receiptPrints run.1 = [] ∧
    (waitParams run.1 ≠ [] → run.2 = Except.error PyErr.timeExhausted)) ∧
  (∀ a, run.2 = Except.ok a →
    ∃ r, firstSome orc receiptPollCount = some r ∧ a = r.contractAddress)

theorem submitTx_timeout (env : Env) (orc : Nat → Option Receipt)
    (tx : UnsignedTx) (g : Nat) (hok : env.estimateGas tx = .ok g)
    (hf : firstSome orc receiptPollCount = none) :
    (submitTx env orc tx).2 = .error .timeExhausted := by
  simp only [res_submitTx, hok, hf]

theorem waitDiscipline_mint (cfg : Config) (env : Env)
    (orc : Nat → Option Receipt) (address : List Nat) :
    WaitDiscipline orc (mint_mock_usdt cfg env orc address) := by
  refine ⟨?_, ?_, ?_⟩
  · intro q hq
    rw [waitParams_mint_mock_usdt] at hq
    cases hfe : env.fileExists mockUsdtPath <;> rw [hfe] at hq
    · simp at hq
    · rw [if_pos rfl] at hq
      cases h : env.estimateGas (mintTx cfg env address) <;> rw [h] at hq
      · simp at hq
      · simpa using hq
  · intro hnone
    have hf : firstSome orc receiptPollCount = none :=
      firstSome_of_none orc hnone _
    refine ⟨?_, ?_, ?_⟩
    · rw [res_mint_mock_usdt]
      cases hfe : env.fileExists mockUsdtPath
      · simp
      · rw [if_pos rfl]
        cases h : env.estimateGas (mintTx cfg env address)
        · simp only [res_submitTx, h]
          simp
        · rw [submitTx_timeout env orc _ _ h hf]
          simp
    · rw [receiptPrints_mint_mock_usdt]
      cases hfe : env.fileExists mockUsdtPath
      · simp
      · rw [if_pos rfl]
        cases h : env.estimateGas (mintTx cfg env address)
        · simp only [res_submitTx, h]
        · rw [submitTx_timeout env orc _ _ h hf]
    · intro hw
      rw [res_mint_mock_usdt]
      rw [waitParams_mint_mock_usdt] at hw
      cases hfe : env.fileExists mockUsdtPath <;> rw [hfe] at hw
      · simp at hw
      · rw [if_pos rfl] at hw
        rw [if_pos rfl]
        cases h : env.estimateGas (mintTx cfg env address) <;> rw [h] at hw
        · simp at hw
        · rw [submitTx_timeout env orc _ _ h hf]
  · intro r hok hr
    rw [receiptPrints_mint_mock_usdt] at hr
    cases hfe : env.fileExists mockUsdtPath <;> rw [hfe] at hr
    · simp at hr
    · rw [if_pos rfl] at hr
      cases h2 : (submitTx env orc (mintTx cfg env address)).2 with
      | error e =>
        rw [h2] at hr
        simp at hr
      | ok r0 =>
        rw [h2] at hr
        simp at hr
        subst hr
        exact submitTx_ok_receipt env orc _ r h2

theorem waitDiscipline_deploy_mock (cfg : Config) (env : Env)
    (orc : Nat → Option Receipt) :
    WaitDiscipline orc (deploy_mock_usdt cfg env orc) := by
  refine ⟨?_, ?_, ?_⟩
  · intro q hq
    rw [waitParams_deploy_mock_usdt] at hq
    cases hfe : env.fileExists mockUsdtPath <;> rw [hfe] at hq
    · simp at hq
    · rw [if_pos rfl] at hq
      cases h : env.estimateGas (mockCreateTx cfg env) <;> rw [h] at hq
      · simp at hq
      · simpa using hq
  · intro hnone
    have hf : firstSome orc receiptPollCount = none :=
      firstSome_of_none orc hnone _
    refine ⟨?_, ?_, ?_⟩
    · rw [res_deploy_mock_usdt]
      cases hfe : env.fileExists mockUsdtPath
      · simp
      · rw [if_pos rfl]
        cases h : env.estimateGas (mockCreateTx cfg env)
        · simp only [res_submitTx, h]
          simp
        · rw [submitTx_timeout env orc _ _ h hf]
          simp
    · exact receiptPrints_deploy_mock_usdt cfg env orc
    · intro hw
      rw [res_deploy_mock_usdt]
      rw [waitParams_deploy_mock_usdt] at hw
      cases hfe : env.fileExists mockUsdtPath <;> rw [hfe] at hw
      · simp at hw
      · rw [if_pos rfl] at hw
        rw [if_pos rfl]
        cases h : env.estimateGas (mockCreateTx cfg env) <;> rw [h] at hw
        · simp at hw
        · rw [submitTx_timeout env orc _ _ h hf]
  · intro r hok hr
    rw [receiptPrints_deploy_mock_usdt] at hr
    simp at hr

theorem waitDiscipline_deploy_impl (cfg : Config) (env : Env)
    (orc : Nat → Option Receipt) (bytecode : List Nat) :
    WaitDisciplineAddr orc (deploy_implementation cfg env orc bytecode) := by
  refine ⟨?_, ?_, ?_⟩
  · intro q hq
    rw [waitParams_deploy_implementation] at hq
    cases h : env.estimateGas (implCreateTx cfg env bytecode) <;> rw [h] at hq
    · simp at hq
    · simpa using hq
  · intro hnone
    have hf : firstSome orc receiptPollCount = none :=
      firstSome_of_none orc hnone _
    refine ⟨?_, ?_, ?_⟩
    · intro a
      rw [res_deploy_implementation]
      cases h : env.estimateGas (implCreateTx cfg env bytecode)
      · simp only [res_submitTx, h]
        simp [Except.map]
      · rw [submitTx_timeout env orc _ _ h hf]
        simp [Except.map]
    · exact receiptPrints_deploy_implementation cfg env orc bytecode
    · intro hw
      rw [res_deploy_implementation]
      rw [waitParams_deploy_implementation] at hw
      cases h : env.estimateGas (implCreateTx cfg env bytecode) <;> rw [h] at hw
      · simp at hw
      · rw [submitTx_timeout env orc _ _ h hf]
        rfl
  · intro a hok
    rw [res_deploy_implementation] at hok
    cases h2 : (submitTx env orc (implCreateTx cfg env bytecode)).2 with
    | error e =>
      rw [h2] at hok
      simp [Except.map] at hok
    | ok r0 =>
      rw [h2] at hok
      simp [Except.map] at hok
      exact ⟨r0, submitTx_ok_receipt env orc _ r0 h2, hok.symm⟩

theorem waitDiscipline_deploy_proxy (cfg : Config) (env : Env)
    (orc : Nat → Option Receipt) (ia : List Nat) :
    WaitDisciplineAddr orc (deploy_proxy cfg env orc ia) := by
  refine ⟨?_, ?_, ?_⟩
  · intro q hq
    rw [waitParams_deploy_proxy] at hq
    cases hfe : env.fileExists proxyArtifactPath <;> rw [hfe] at hq
    · simp at hq
    · rw [if_pos rfl] at hq
      cases h : env.estimateGas (proxyCreateTx cfg env ia) <;> rw [h] at hq
      · simp at hq
      · simpa using hq
  · intro hnone
    have hf : firstSome orc receiptPollCount = none :=
      firstSome_of_none orc hnone _
    refine ⟨?_, ?_, ?_⟩
    · intro a
      rw [res_deploy_proxy]
      cases hfe : env.fileExists proxyArtifactPath
      · simp
      · rw [if_pos rfl]
        cases h : env.estimateGas (proxyCreateTx cfg env ia)
        · simp only [res_submitTx, h]
          simp [Except.map]
        · rw [submitTx_timeout env orc _ _ h hf]
          simp [Except.map]
    · exact receiptPrints_deploy_proxy cfg env orc ia
    · intro hw
      rw [res_deploy_proxy]
      rw [waitParams_deploy_proxy] at hw
      cases hfe : env.fileExists proxyArtifactPath <;> rw [hfe] at hw
      · simp at hw
      · rw [if_pos rfl] at hw
        rw [if_pos rfl]
        cases h : env.estimateGas (proxyCreateTx cfg env ia) <;> rw [h] at hw
        · simp at hw
        · rw [submitTx_timeout env orc _ _ h hf]
          rfl
  · intro a hok
    rw [res_deploy_proxy] at hok
    cases hfe : env.fileExists proxyArtifactPath <;> rw [hfe] at hok
    · simp at hok
    · rw [if_pos rfl] at hok
      cases h2 : (submitTx env orc (proxyCreateTx cfg env ia)).2 with
      | error e =>
        rw [h2] at hok
        simp [Except.map] at hok
      | ok r0 =>
        rw [h2] at hok
        simp [Except.map] at hok
        exact ⟨r0, submitTx_ok_receipt env orc _ r0 h2, hok.symm⟩

/-- Claim C8, counterexample: the claim says every transaction-submitting
operation polls for its receipt with the fixed interval and timeout, but a
concrete `createOrder` run against a node that never produces a receipt
never reaches the polling loop at all: it raises an uncaught `NameError` on
the unbound module global `zk_web3` before broadcasting anything, emits no
wait, prints no receipt, and fails with that error rather than a timeout. -/
theorem claim_C8_counterexample :
    waitParams (create_order kec0 cfg0 env0 orcNo coArgs0).1 = [] ∧
    receiptPrints (create_order kec0 cfg0 env0 orcNo coArgs0).1 = [] ∧
    (create_order kec0 cfg0 env0 orcNo coArgs0).2 =
      Except.error nameErrorZkWeb3 :=
  ⟨rfl, rfl, rfl⟩

/-- Claim C8, amended: in the flows that actually submit a transaction —
`mintMockUSDT`, `deployMockUSDT`, `deploy_implementation`, `deploy_proxy` —
receipt polling is configured with the fixed 0.5-unit interval and fixed
240-unit timeout (480 polls at 0.5 units fill the 240-unit window); if no
receipt is observed within the window the operation fails with a timeout
error and prints no receipt; and on success the returned and printed receipt
is the polled one, from which the contract-creation flows extract the
deployed address. The contract write commands never reach polling: each
raises an uncaught `NameError` on the unbound global `zk_web3` before any
network call. -/
theorem claim_C8_receipt_polling :
    RECEIPT_TIMEOUT = 240 ∧ RECEIPT_POLL_LATENCY = 1 / 2 ∧
    (receiptPollCount : ℚ) * RECEIPT_POLL_LATENCY = RECEIPT_TIMEOUT ∧
    (∀ (cfg : Config) (env : Env) (orc : Nat → Option Receipt)
        (address : List Nat),
      WaitDiscipline orc (mint_mock_usdt cfg env orc address)) ∧
    (∀ (cfg : Config) (env : Env) (orc : Nat → Option Receipt),
      WaitDiscipline orc (deploy_mock_usdt cfg env orc)) ∧
    (∀ (cfg : Config) (env : Env) (orc : Nat → Option Receipt)
        (bytecode : List Nat),
      WaitDisciplineAddr orc (deploy_implementation cfg env orc bytecode)) ∧
    (∀ (cfg : Config) (env : Env) (orc : Nat → Option Receipt) (ia : List Nat),
      WaitDisciplineAddr orc (deploy_proxy cfg env orc ia)) ∧
    (∀ (kec : List Nat → List Nat) (cfg : Config) (env : Env)
        (orc : Nat → Option Receipt) (a : CreateOrderArgs),
      waitParams (create_order kec cfg env orc a).1 = [] ∧
      receiptPrints (create_order kec cfg env orc a).1 = [] ∧
      (create_order kec cfg env orc a).2 = Except.error nameErrorZkWeb3) ∧
    (∀ (kec : List Nat → List Nat) (cfg : Config) (env : Env)
        (orc : Nat → Option Receipt) (a : SetProviderArgs),
      waitParams (set_provider kec cfg env orc a).1 = [] ∧
      receiptPrints (set_provider kec cfg env orc a).1 = [] ∧
      (set_provider kec cfg env orc a).2 = Except.error nameErrorZkWeb3) ∧
    (∀ (kec : List Nat → List Nat) (cfg : Config) (env : Env)
        (orc : Nat → Option Receipt) (a : ChangeOrderArgs),
      waitParams (change_order kec cfg env orc a).1 = [] ∧
      receiptPrints (change_order kec cfg env orc a).1 = [] ∧
      (change_order kec cfg env orc a).2 = Except.error nameErrorZkWeb3) ∧
    (∀ (cfg : Config) (env : Env) (orc : Nat → Option Receipt)
        (orderId : List Nat),
      waitParams (stop_order cfg env orc orderId).1 = [] ∧
      receiptPrints (stop_order cfg env orc orderId).1 = [] ∧
      (stop_order cfg env orc orderId).2 = Except.error nameErrorZkWeb3) ∧
    (∀ (cfg : Config) (env : Env) (orc : Nat → Option Receipt)
        (orderIds : List (List Nat)) (total : List Nat),
      waitParams (fulfill cfg env orc orderIds total).1 = [] ∧
      receiptPrints (fulfill cfg env orc orderIds total).1 = [] ∧
      (fulfill cfg env orc orderIds total).2 = Except.error nameErrorZkWeb3) ∧
    (∀ (cfg : Config) (env : Env) (orc : Nat → Option Receipt)
        (proof publicValues : List Nat),
      waitParams (close_orders cfg env orc proof publicValues).1 = [] ∧
      receiptPrints (close_orders cfg env orc proof publicValues).1 = [] ∧
      (close_orders cfg env orc proof publicValues).2 =
        Except.error nameErrorZkWeb3) ∧
    (∀ (kec : List Nat → List Nat) (cfg : Config) (env : Env)
        (orc : Nat → Option Receipt) (tr v vk : List Nat),
      waitParams (set_zk_variables kec cfg env orc tr v vk).1 = [] ∧
      receiptPrints (set_zk_variables kec cfg env orc tr v vk).1 = [] ∧
      (set_zk_variables kec cfg env orc tr v vk).2 =
        Except.error nameErrorZkWeb3) ∧
    (∀ (kec : List Nat → List Nat) (cfg : Config) (env : Env)
        (orc : Nat → Option Receipt) (u sp sw : List Nat),
      waitParams (set_transfers_variables kec cfg env orc u sp sw).1 = [] ∧
      receiptPrints (set_transfers_variables kec cfg env orc u sp sw).1 = [] ∧
      (set_transfers_variables kec cfg env orc u sp sw).2 =
        Except.error nameErrorZkWeb3) ∧
    (∀ (cfg : Config) (env : Env) (orc : Nat → Option Receipt)
        (rf fp : List Nat),
      waitParams (set_fees_variables cfg env orc rf fp).1 = [] ∧
      receiptPrints (set_fees_variables cfg env orc rf fp).1 = [] ∧
      (set_fees_variables cfg env orc rf fp).2 =
        Except.error nameErrorZkWeb3) ∧
    (∀ (cfg : Config) (env : Env) (orc : Nat → Option Receipt)
        (bi act lea sh mo rc : List Nat),
      waitParams (set_core_variables cfg env orc bi act lea sh mo rc).1 = [] ∧
      receiptPrints (set_core_variables cfg env orc bi act lea sh mo rc).1 = [] ∧
      (set_core_variables cfg env orc bi act lea sh mo rc).2 =
        Except.error nameErrorZkWeb3) := by
  refine ⟨rfl, rfl, by norm_num [receiptPollCount, RECEIPT_POLL_LATENCY, RECEIPT_TIMEOUT],
    ?_, ?_, ?_, ?_, ?_, ?_, ?_, ?_, ?_, ?_, ?_, ?_, ?_, ?_⟩
  · exact fun cfg env orc address => waitDiscipline_mint cfg env orc address
  · exact fun cfg env orc => waitDiscipline_deploy_mock cfg env orc
  · exact fun cfg env orc bytecode =>
      waitDiscipline_deploy_impl cfg env orc bytecode
  · exact fun cfg env orc ia => waitDiscipline_deploy_proxy cfg env orc ia
  · exact fun kec cfg env orc a => ⟨rfl, rfl, rfl⟩
  · exact fun kec cfg env orc a => ⟨rfl, rfl, rfl⟩
  · exact fun kec cfg env orc a => ⟨rfl, rfl, rfl⟩
  · exact fun cfg env orc orderId => ⟨rfl, rfl, rfl⟩
  · exact fun cfg env orc orderIds total => ⟨rfl, rfl, rfl⟩
  · exact fun cfg env orc proof publicValues => ⟨rfl, rfl, rfl⟩
  · exact fun kec cfg env orc tr v vk => ⟨rfl, rfl, rfl⟩
  · exact fun kec cfg env orc u sp sw => ⟨rfl, rfl, rfl⟩
  · exact fun cfg env orc rf fp => ⟨rfl, rfl, rfl⟩
  · exact fun cfg env orc bi act lea sh mo rc => ⟨rfl, rfl, rfl⟩

set_option maxRecDepth 20000 in
/-- Witness for claim C8: a concrete `mintMockUSDT` run against a node that
never produces a receipt fails with the timeout error and prints nothing. -/
theorem claim_C8_witness :
    (mint_mock_usdt cfg0 env0 orcNo (codes "0xT")).2 =
      Except.error PyErr.timeExhausted ∧
    receiptPrints (mint_mock_usdt cfg0 env0 orcNo (codes "0xT")).1 = [] :=
  have hd := (claim_C8_receipt_polling.2.2.2.1 cfg0 env0 orcNo
    (codes "0xT")).2.1 (fun k => rfl)
  ⟨hd.2.2 (by decide), hd.2.1⟩

theorem configWrites_providers (kec : List Nat → List Nat) (cfg : Config)
    (env : Env) (p : List Nat) :
    configWrites (providers kec cfg env p).1 = [] := by
  unfold providers
  cases h : env.fileExists untronCorePath <;>
      simp [init_read, load_contract_file, h, Except.map, configWrites]
  cases hc : to_checksum_address kec p <;>
    simp [configWrites_append, configWrites]

theorem configWrites_block_id (cfg : Config) (env : Env) :
    configWrites (block_id cfg env).1 = [] := by
  unfold block_id
  cases h : env.fileExists untronCorePath <;>
    simp [init_read, load_contract_file, h, Except.map, configWrites]

theorem configWrites_nil : configWrites [] = [] := rfl

theorem configWrites_cons_print (s' : String) (tr : List Ev) :
    configWrites (Ev.printMsg s' :: tr) = configWrites tr := rfl

theorem configWrites_cons_write (c : Config) (tr : List Ev) :
    configWrites (Ev.configWrite c :: tr) = c :: configWrites tr := rfl

theorem configWrites_initRpcWriteEvs : configWrites initRpcWriteEvs = [] := rfl

theorem configWrites_lcf (env : Env) :
    configWrites (load_contract_file env).1 = [] := by
  unfold load_contract_file
  cases h : env.fileExists untronCorePath <;> simp [h, configWrites]

theorem deploy_untron_ok_configWrites (cfg : Config) (env : Env)
    (orc0 orc1 : Nat → Option Receipt)
    (hok : (deploy_untron cfg env orc0 orc1).2 = Except.ok ()) :
    ∃ r, firstSome orc1 receiptPollCount = some r ∧
      configWrites (deploy_untron cfg env orc0 orc1).1 =
        [{ cfg with untron_core_address := r.contractAddress }] := by
  unfold deploy_untron at hok ⊢
  simp only [] at hok ⊢
  cases hlf : (load_contract_file env).2 with
  | error e =>
    rw [hlf] at hok
    simp at hok
  | ok bytecode =>
    rw [hlf] at hok
    simp only [] at hok ⊢
    cases hdi : (deploy_implementation cfg env orc0 bytecode).2 with
    | error e =>
      rw [hdi] at hok
      simp at hok
    | ok implAddr =>
      rw [hdi] at hok
      simp only [] at hok ⊢
      cases hdp : (deploy_proxy cfg env orc1 implAddr).2 with
      | error e =>
        rw [hdp] at hok
        simp at hok
      | ok proxyAddr =>
        rw [hdp] at hok
        simp only [] at hok ⊢
        obtain ⟨r, hr, ha⟩ :=
          (waitDiscipline_deploy_proxy cfg env orc1 implAddr).2.2 proxyAddr hdp
        refine ⟨r, hr, ?_⟩
        subst ha
        simp only [configWrites_append, configWrites_initRpcWriteEvs,
          configWrites_lcf, configWrites_deploy_implementation,
          configWrites_deploy_proxy, configWrites_cons_print,
          configWrites_cons_write, configWrites_nil, List.nil_append,
          List.append_nil]

theorem configWrites_is_receiver_busy (kec : List Nat → List Nat)
    (cfg : Config) (env : Env) (p : List Nat) :
    configWrites (is_receiver_busy kec cfg env p).1 = [] := by
  unfold is_receiver_busy
  cases h : env.fileExists untronCorePath <;>
      simp [init_read, load_contract_file, h, Except.map, configWrites]
  cases hc : to_checksum_address kec p <;>
    simp [configWrites_append, configWrites]

theorem configWrites_receiver_owners (kec : List Nat → List Nat)
    (cfg : Config) (env : Env) (p : List Nat) :
    configWrites (receiver_owners kec cfg env p).1 = [] := by
  unfold receiver_owners
  cases h : env.fileExists untronCorePath <;>
      simp [init_read, load_contract_file, h, Except.map, configWrites]
  cases hc : to_checksum_address kec p <;>
    simp [configWrites_append, configWrites]

theorem configWrites_orders (cfg : Config) (env : Env) (orderId : List Nat) :
    configWrites (orders cfg env orderId).1 = [] := by
  unfold orders
  cases h : env.fileExists untronCorePath <;>
    simp [init_read, load_contract_file, h, Except.map, configWrites]

theorem configWrites_action_chain_tip (cfg : Config) (env : Env) :
    configWrites (action_chain_tip cfg env).1 = [] := by
  unfold action_chain_tip
  cases h : env.fileExists untronCorePath <;>
    simp [init_read, load_contract_file, h, Except.map, configWrites]

theorem configWrites_latest_executed_action (cfg : Config) (env : Env) :
    configWrites (latest_executed_action cfg env).1 = [] := by
  unfold latest_executed_action
  cases h : env.fileExists untronCorePath <;>
    simp [init_read, load_contract_file, h, Except.map, configWrites]

theorem configWrites_state_hash (cfg : Config) (env : Env) :
    configWrites (state_hash cfg env).1 = [] := by
  unfold state_hash
  cases h : env.fileExists untronCorePath <;>
    simp [init_read, load_contract_file, h, Except.map, configWrites]

theorem configWrites_max_order_size (cfg : Config) (env : Env) :
    configWrites (max_order_size cfg env).1 = [] := by
  unfold max_order_size
  cases h : env.fileExists untronCorePath <;>
    simp [init_read, load_contract_file, h, Except.map, configWrites]

theorem configWrites_required_collateral (cfg : Config) (env : Env) :
    configWrites (required_collateral cfg env).1 = [] := by
  unfold required_collateral
  cases h : env.fileExists untronCorePath <;>
    simp [init_read, load_contract_file, h, Except.map, configWrites]

theorem configWrites_calculate_fulfiller_total (cfg : Config) (env : Env)
    (orderIds : List (List Nat)) :
    configWrites (calculate_fulfiller_total cfg env orderIds).1 = [] := by
  unfold calculate_fulfiller_total
  cases h : env.fileExists untronCorePath <;>
    simp [init_read, load_contract_file, h, Except.map, configWrites]

/-- Claim C9: after a successful `deploy`, the configuration file is written
back exactly once, with `untron_core_address` set to the address extracted
from the proxy-creation receipt and all other fields (`zksync_rpc`,
`private_key`) unchanged; and no other command ever writes the
configuration file. -/
theorem claim_C9_config_write :
    (∀ (cfg : Config) (env : Env) (orc0 orc1 : Nat → Option Receipt),
      (deploy_untron cfg env orc0 orc1).2 = Except.ok () →
      ∃ r, firstSome orc1 receiptPollCount = some r ∧
        configWrites (deploy_untron cfg env orc0 orc1).1 =
          [{ cfg with untron_core_address := r.contractAddress }] ∧
        ∀ c ∈ configWrites (deploy_untron cfg env orc0 orc1).1,
          c.zksync_rpc = cfg.zksync_rpc ∧ c.private_key = cfg.private_key) ∧
    (∀ (kec : List Nat → List Nat) (cfg : Config) (env : Env)
        (orc : Nat → Option Receipt) (a : CreateOrderArgs),
      configWrites (create_order kec cfg env orc a).1 = []) ∧
    (∀ (kec : List Nat → List Nat) (cfg : Config) (env : Env)
        (orc : Nat → Option Receipt) (a : SetProviderArgs),
      configWrites (set_provider kec cfg env orc a).1 = []) ∧
    (∀ (kec : List Nat → List Nat) (cfg : Config) (env : Env)
        (orc : Nat → Option Receipt) (a : ChangeOrderArgs),
      configWrites (change_order kec cfg env orc a).1 = []) ∧
    (∀ (cfg : Config) (env : Env) (orc : Nat → Option Receipt)
        (orderId : List Nat),
      configWrites (stop_order cfg env orc orderId).1 = []) ∧
    (∀ (cfg : Config) (env : Env) (orc : Nat → Option Receipt)
        (orderIds : List (List Nat)) (total : List Nat),
      configWrites (fulfill cfg env orc orderIds total).1 = []) ∧
    (∀ (cfg : Config) (env : Env) (orc : Nat → Option Receipt)
        (proof publicValues : List Nat),
      configWrites (close_orders cfg env orc proof publicValues).1 = []) ∧
    (∀ (kec : List Nat → List Nat) (cfg : Config) (env : Env)
        (orc : Nat → Option Receipt) (tr v vk : List Nat),
      configWrites (set_zk_variables kec cfg env orc tr v vk).1 = []) ∧
    (∀ (kec : List Nat → List Nat) (cfg : Config) (env : Env)
        (orc : Nat → Option Receipt) (u sp sw : List Nat),
      configWrites (set_transfers_variables kec cfg env orc u sp sw).1 = []) ∧
    (∀ (cfg : Config) (env : Env) (orc : Nat → Option Receipt)
        (rf fp : List Nat),
      configWrites (set_fees_variables cfg env orc rf fp).1 = []) ∧
    (∀ (cfg : Config) (env : Env) (orc : Nat → Option Receipt)
        (bi act lea sh mo rc : List Nat),
      configWrites (set_core_variables cfg env orc bi act lea sh mo rc).1 = []) ∧
    (∀ (cfg : Config) (env : Env) (orc : Nat → Option Receipt)
        (address : List Nat),
      configWrites (mint_mock_usdt cfg env orc address).1 = []) ∧
    (∀ (cfg : Config) (env : Env) (orc : Nat → Option Receipt),
      configWrites (deploy_mock_usdt cfg env orc).1 = []) ∧
    (∀ (cfg : Config) (env : Env) (orc : Nat → Option Receipt)
        (bytecode : List Nat),
      configWrites (deploy_implementation cfg env orc bytecode).1 = []) ∧
    (∀ (cfg : Config) (env : Env) (orc : Nat → Option Receipt) (ia : List Nat),
      configWrites (deploy_proxy cfg env orc ia).1 = []) ∧
    (∀ (kec : List Nat → List Nat) (cfg : Config) (env : Env) (p : List Nat),
      configWrites (providers kec cfg env p).1 = []) ∧
    (∀ (kec : List Nat → List Nat) (cfg : Config) (env : Env) (p : List Nat),
      configWrites (is_receiver_busy kec cfg env p).1 = []) ∧
    (∀ (kec : List Nat → List Nat) (cfg : Config) (env : Env) (p : List Nat),
      configWrites (receiver_owners kec cfg env p).1 = []) ∧
    (∀ (cfg : Config) (env : Env) (orderId : List Nat),
      configWrites (orders cfg env orderId).1 = []) ∧
    (∀ (cfg : Config) (env : Env), configWrites (block_id cfg env).1 = []) ∧
    (∀ (cfg : Config) (env : Env),
      configWrites (action_chain_tip cfg env).1 = []) ∧
    (∀ (cfg : Config) (env : Env),
      configWrites (latest_executed_action cfg env).1 = []) ∧
    (∀ (cfg : Config) (env : Env), configWrites (state_hash cfg env).1 = []) ∧
    (∀ (cfg : Config) (env : Env),
      configWrites (max_order_size cfg env).1 = []) ∧
    (∀ (cfg : Config) (env : Env),
      configWrites (required_collateral cfg env).1 = []) ∧
    (∀ (cfg : Config) (env : Env) (orderIds : List (List Nat)),
      configWrites (calculate_fulfiller_total cfg env orderIds).1 = []) := by
  refine ⟨?_, ?_, ?_, ?_, ?_, ?_, ?_, ?_, ?_, ?_, ?_, ?_, ?_, ?_, ?_, ?_, ?_,
    ?_, ?_, ?_, ?_, ?_, ?_, ?_, ?_, ?_⟩
  · intro cfg env orc0 orc1 hok
    obtain ⟨r, hr, hw⟩ := deploy_untron_ok_configWrites cfg env orc0 orc1 hok
    refine ⟨r, hr, hw, ?_⟩
    intro c hc
    rw [hw] at hc
    simp at hc
    subst hc
    exact ⟨rfl, rfl⟩
  · exact fun kec cfg env orc a => configWrites_runCW cfg env orc _ _ _
  · exact fun kec cfg env orc a => configWrites_runCW cfg env orc _ _ _
  · exact fun kec cfg env orc a => configWrites_runCW cfg env orc _ _ _
  · exact fun cfg env orc orderId => configWrites_runCW cfg env orc _ _ _
  · exact fun cfg env orc orderIds total => configWrites_runCW cfg env orc _ _ _
  · exact fun cfg env orc p v => configWrites_runCW cfg env orc _ _ _
  · exact fun kec cfg env orc tr v vk => configWrites_runCW cfg env orc _ _ _
  · exact fun kec cfg env orc u sp sw => configWrites_runCW cfg env orc _ _ _
  · exact fun cfg env orc rf fp => configWrites_runCW cfg env orc _ _ _
  · exact fun cfg env orc bi act lea sh mo rc =>
      configWrites_runCW cfg env orc _ _ _
  · exact fun cfg env orc address => configWrites_mint_mock_usdt cfg env orc address
  · exact fun cfg env orc => configWrites_deploy_mock_usdt cfg env orc
  · exact fun cfg env orc bytecode =>
      configWrites_deploy_implementation cfg env orc bytecode
  · exact fun cfg env orc ia => configWrites_deploy_proxy cfg env orc ia
  · exact fun kec cfg env p => configWrites_providers kec cfg env p
  · exact fun kec cfg env p => configWrites_is_receiver_busy kec cfg env p
  · exact fun kec cfg env p => configWrites_receiver_owners kec cfg env p
  · exact fun cfg env orderId => configWrites_orders cfg env orderId
  · exact fun cfg env => configWrites_block_id cfg env
  · exact fun cfg env => configWrites_action_chain_tip cfg env
  · exact fun cfg env => configWrites_latest_executed_action cfg env
  · exact fun cfg env => configWrites_state_hash cfg env
  · exact fun cfg env => configWrites_max_order_size cfg env
  · exact fun cfg env => configWrites_required_collateral cfg env
  · exact fun cfg env orderIds => configWrites_calculate_fulfiller_total cfg env orderIds

set_option maxRecDepth 20000 in
/-- Witness for claim C9: a concrete successful deploy writes back exactly
the configuration with only the core address replaced by the receipt's
contract address. -/
theorem claim_C9_witness :
    configWrites (deploy_untron cfg0 env0 orcYes orcYes).1 =
      [{ cfg0 with untron_core_address := rc0.contractAddress }] := by
  obtain ⟨r, hr, hw, _⟩ :=
    claim_C9_config_write.1 cfg0 env0 orcYes orcYes (by decide)
  have h2 : firstSome orcYes receiptPollCount = some rc0 := by decide
  rw [h2] at hr
  have : r = rc0 := (Option.some_inj.mp hr).symm
  rw [this] at hw
  exact hw



/-- Claim C3, counterexample: with the MockUSDT artifact absent, the
`deployMockUSDT` command still performs three network calls (chain id,
pending nonce, gas price) before its unchecked artifact open, then dies with
an uncaught file-not-found error — no descriptive message, no explicit
exit-1 path, and network calls were performed. -/
theorem claim_C3_counterexample :
    (deploy_mock_usdt cfg0 envNoFiles orcYes).1 =
      [Ev.netChainId, Ev.netGetTransactionCount BlockParam.pending,
       Ev.netGasPrice, Ev.fileOpen mockUsdtPath] ∧
    (deploy_mock_usdt cfg0 envNoFiles orcYes).2 =
      Except.error (PyErr.exception "FileNotFoundError") :=
  ⟨by decide, by decide⟩

/-- Claim C3, amended: when the artifact a flow needs is absent, the
existence-checked loaders print a descriptive message and exit with code 1 —
and the read commands reach that exit with no network call — but the deploy
flow fetches the chain id over the network before the check, and the
MockUSDT flows perform no existence check at all: they fail with an uncaught
file-not-found exception after already fetching the chain id, the pending
nonce and the gas price. -/
theorem claim_C3_artifact_handling :
    (∀ (kec : List Nat → List Nat) (cfg : Config) (env : Env) (p : List Nat),
      env.fileExists untronCorePath = false →
      (providers kec cfg env p).2 = Except.error (PyErr.exited 1) ∧
      Ev.printMsg "ABI file 'UntronCore.json' not found." ∈
        (providers kec cfg env p).1 ∧
      netEvs (providers kec cfg env p).1 = []) ∧
    (∀ (kec : List Nat → List Nat) (cfg : Config) (env : Env) (p : List Nat),
      env.fileExists untronCorePath = false →
      (is_receiver_busy kec cfg env p).2 = Except.error (PyErr.exited 1) ∧
      Ev.printMsg "ABI file 'UntronCore.json' not found." ∈
        (is_receiver_busy kec cfg env p).1 ∧
      netEvs (is_receiver_busy kec cfg env p).1 = []) ∧
    (∀ (kec : List Nat → List Nat) (cfg : Config) (env : Env) (p : List Nat),
      env.fileExists untronCorePath = false →
      (receiver_owners kec cfg env p).2 = Except.error (PyErr.exited 1) ∧
      Ev.printMsg "ABI file 'UntronCore.json' not found." ∈
        (receiver_owners kec cfg env p).1 ∧
      netEvs (receiver_owners kec cfg env p).1 = []) ∧
    (∀ (cfg : Config) (env : Env) (orderId : List Nat),
      env.fileExists untronCorePath = false →
      (orders cfg env orderId).2 = Except.error (PyErr.exited 1) ∧
      Ev.printMsg "ABI file 'UntronCore.json' not found." ∈
        (orders cfg env orderId).1 ∧
      netEvs (orders cfg env orderId).1 = []) ∧
    (∀ (cfg : Config) (env : Env),
      env.fileExists untronCorePath = false →
      (block_id cfg env).2 = Except.error (PyErr.exited 1) ∧
      Ev.printMsg "ABI file 'UntronCore.json' not found." ∈ (block_id cfg env).1 ∧
      netEvs (block_id cfg env).1 = []) ∧
    (∀ (cfg : Config) (env : Env),
      env.fileExists untronCorePath = false →
      (action_chain_tip cfg env).2 = Except.error (PyErr.exited 1) ∧
      Ev.printMsg "ABI file 'UntronCore.json' not found." ∈
        (action_chain_tip cfg env).1 ∧
      netEvs (action_chain_tip cfg env).1 = []) ∧
    (∀ (cfg : Config) (env : Env),
      env.fileExists untronCorePath = false →
      (latest_executed_action cfg env).2 = Except.error (PyErr.exited 1) ∧
      Ev.printMsg "ABI file 'UntronCore.json' not found." ∈
        (latest_executed_action cfg env).1 ∧
      netEvs (latest_executed_action cfg env).1 = []) ∧
    (∀ (cfg : Config) (env : Env),
      env.fileExists untronCorePath = false →
      (state_hash cfg env).2 = Except.error (PyErr.exited 1) ∧
      Ev.printMsg "ABI file 'UntronCore.json' not found." ∈
        (state_hash cfg env).1 ∧
      netEvs (state_hash cfg env).1 = []) ∧
    (∀ (cfg : Config) (env : Env),
      env.fileExists untronCorePath = false →
      (max_order_size cfg env).2 = Except.error (PyErr.exited 1) ∧
      Ev.printMsg "ABI file 'UntronCore.json' not found." ∈
        (max_order_size cfg env).1 ∧
      netEvs (max_order_size cfg env).1 = []) ∧
    (∀ (cfg : Config) (env : Env),
      env.fileExists untronCorePath = false →
      (required_collateral cfg env).2 = Except.error (PyErr.exited 1) ∧
      Ev.printMsg "ABI file 'UntronCore.json' not found." ∈
        (required_collateral cfg env).1 ∧
      netEvs (required_collateral cfg env).1 = []) ∧
    (∀ (cfg : Config) (env : Env) (orderIds : List (List Nat)),
      env.fileExists untronCorePath = false →
      (calculate_fulfiller_total cfg env orderIds).2 =
        Except.error (PyErr.exited 1) ∧
      Ev.printMsg "ABI file 'UntronCore.json' not found." ∈
        (calculate_fulfiller_total cfg env orderIds).1 ∧
      netEvs (calculate_fulfiller_total cfg env orderIds).1 = []) ∧
    (∀ (cfg : Config) (env : Env) (orc0 orc1 : Nat → Option Receipt),
      env.fileExists untronCorePath = false →
      (deploy_untron cfg env orc0 orc1).2 = Except.error (PyErr.exited 1) ∧
      Ev.printMsg "ABI file 'UntronCore.json' not found." ∈
        (deploy_untron cfg env orc0 orc1).1 ∧
      netEvs (deploy_untron cfg env orc0 orc1).1 = [Ev.netChainId]) ∧
    (∀ (cfg : Config) (env : Env) (orc : Nat → Option Receipt) (ia : List Nat),
      env.fileExists proxyArtifactPath = false →
      (deploy_proxy cfg env orc ia).2 = Except.error (PyErr.exited 1) ∧
      Ev.printMsg "ABI file 'ERC1967Proxy.json' not found." ∈
        (deploy_proxy cfg env orc ia).1 ∧
      netEvs (deploy_proxy cfg env orc ia).1 = []) ∧
    (∀ (cfg : Config) (env : Env) (orc : Nat → Option Receipt)
        (address : List Nat),
      env.fileExists mockUsdtPath = false →
      (mint_mock_usdt cfg env orc address).2 =
        Except.error (PyErr.exception "FileNotFoundError") ∧
      netEvs (mint_mock_usdt cfg env orc address).1 =
        [Ev.netChainId, Ev.netGetTransactionCount BlockParam.pending,
         Ev.netGasPrice]) ∧
    (∀ (cfg : Config) (env : Env) (orc : Nat → Option Receipt),
      env.fileExists mockUsdtPath = false →
      (deploy_mock_usdt cfg env orc).2 =
        Except.error (PyErr.exception "FileNotFoundError") ∧
      netEvs (deploy_mock_usdt cfg env orc).1 =
        [Ev.netChainId, Ev.netGetTransactionCount BlockParam.pending,
         Ev.netGasPrice]) := by
  refine ⟨?_, ?_, ?_, ?_, ?_, ?_, ?_, ?_, ?_, ?_, ?_, ?_, ?_, ?_, ?_⟩
  · intro kec cfg env p h
    refine ⟨?_, ?_, ?_⟩ <;>
      simp [providers, init_read, load_contract_file, h, Except.map, netEvs,
        isNetEv]
  · intro kec cfg env p h
    refine ⟨?_, ?_, ?_⟩ <;>
      simp [is_receiver_busy, init_read, load_contract_file, h, Except.map,
        netEvs, isNetEv]
  · intro kec cfg env p h
    refine ⟨?_, ?_, ?_⟩ <;>
      simp [receiver_owners, init_read, load_contract_file, h, Except.map,
        netEvs, isNetEv]
  · intro cfg env orderId h
    refine ⟨?_, ?_, ?_⟩ <;>
      simp [orders, init_read, load_contract_file, h, Except.map, netEvs,
        isNetEv]
  · intro cfg env h
    refine ⟨?_, ?_, ?_⟩ <;>
      simp [block_id, init_read, load_contract_file, h, Except.map, netEvs,
        isNetEv]
  · intro cfg env h
    refine ⟨?_, ?_, ?_⟩ <;>
      simp [action_chain_tip, init_read, load_contract_file, h, Except.map,
        netEvs, isNetEv]
  · intro cfg env h
    refine ⟨?_, ?_, ?_⟩ <;>
      simp [latest_executed_action, init_read, load_contract_file, h,
        Except.map, netEvs, isNetEv]
  · intro cfg env h
    refine ⟨?_, ?_, ?_⟩ <;>
      simp [state_hash, init_read, load_contract_file, h, Except.map, netEvs,
        isNetEv]
  · intro cfg env h
    refine ⟨?_, ?_, ?_⟩ <;>
      simp [max_order_size, init_read, load_contract_file, h, Except.map,
        netEvs, isNetEv]
  · intro cfg env h
    refine ⟨?_, ?_, ?_⟩ <;>
      simp [required_collateral, init_read, load_contract_file, h, Except.map,
        netEvs, isNetEv]
  · intro cfg env orderIds h
    refine ⟨?_, ?_, ?_⟩ <;>
      simp [calculate_fulfiller_total, init_read, load_contract_file, h,
        Except.map, netEvs, isNetEv]
  · intro cfg env orc0 orc1 h
    refine ⟨?_, ?_, ?_⟩ <;>
      simp [deploy_untron, load_contract_file, h, initRpcWriteEvs, netEvs,
        isNetEv]
  · intro cfg env orc ia h
    refine ⟨?_, ?_, ?_⟩ <;>
      simp [deploy_proxy, h, netEvs, isNetEv]
  · intro cfg env orc address h
    refine ⟨?_, ?_⟩ <;>
      simp [mint_mock_usdt, h, initRpcWriteEvs, netEvs, isNetEv]
  · intro cfg env orc h
    refine ⟨?_, ?_⟩ <;>
      simp [deploy_mock_usdt, h, initRpcWriteEvs, netEvs, isNetEv]

/-- Witness for claim C3: a concrete `blockId` invocation with the artifact
absent exits with code 1, prints the descriptive message, and performed no
network calls; a concrete deploy performed the chain-id fetch first. -/
theorem claim_C3_witness :
    ((block_id cfg0 envNoFiles).2 = Except.error (PyErr.exited 1) ∧
      Ev.printMsg "ABI file 'UntronCore.json' not found." ∈
        (block_id cfg0 envNoFiles).1 ∧
      netEvs (block_id cfg0 envNoFiles).1 = []) ∧
    netEvs (deploy_untron cfg0 envNoFiles orcYes orcYes).1 = [Ev.netChainId] :=
  ⟨claim_C3_artifact_handling.2.2.2.2.1 cfg0 envNoFiles rfl,
   (claim_C3_artifact_handling.2.2.2.2.2.2.2.2.2.2.2.1 cfg0 envNoFiles orcYes
     orcYes rfl).2.2⟩


end Untron
